import Mathlib

/-!
Verification development for the trade-lifecycle / portfolio-analytics engine.

The definitions below are a shallow embedding of the repository's Python
modules, with floats modelled by `ℚ`, `float('inf')` by `ExtQ.inf`,
SQL rows by structures mirroring the `db_manager.initialize_database`
schema, and Python dicts by association lists.  `math.sqrt` is modelled
by an explicit function parameter `sq : ℚ → ℚ` threaded to the two call
sites (`analytics._calculate_correlation`, Sharpe computation), so that
theorems can state exactly which property of the square root they use.

Passthrough columns of `option_price_tracking` that no embedded code path
reads or branches on (exchange, greeks, implied-volatility fields,
contract details) are omitted from `TrackRow`; they are copied verbatim
from the quote payload by the source and never consulted.
-/

/-- Python float values where `float('inf')` can occur (profit factor). -/
inductive ExtQ where
  | fin : ℚ → ExtQ
  | inf : ExtQ
deriving DecidableEq

/-- A calendar date, as stored in the DATE columns (`YYYY-MM-DD`). -/
structure Date where
  year : ℤ
  month : ℤ
  day : ℤ
deriving DecidableEq

/-- Days since 1970-01-01 (proleptic Gregorian, floor-division form of the
standard civil-from-days algorithm); mirrors `datetime` date arithmetic. -/
def Date.toDays (d : Date) : ℤ :=
  let y : ℤ := d.year - (if d.month ≤ 2 then 1 else 0)
  let mp : ℤ := Int.emod (d.month + 9) 12
  365 * y + Int.ediv y 4 - Int.ediv y 100 + Int.ediv y 400
    + Int.ediv (153 * mp + 2) 5 + d.day - 1 - 719468

/-- Weekday with Monday = 0 (1970-01-01 was a Thursday). -/
def Date.weekdayM (d : Date) : ℤ := Int.emod (d.toDays + 3) 7

/-- 1-based ordinal day within the year. -/
def Date.dayOfYear (d : Date) : ℤ := d.toDays - (Date.toDays ⟨d.year, 1, 1⟩) + 1

/-- Python `strftime('%W')`: Monday-based week number, week 0 before the
first Monday of the year. -/
def Date.weekW (d : Date) : ℤ := Int.ediv (d.dayOfYear + 6 - d.weekdayM) 7

/-- Zero-pad to two digits, as `strftime` does for `%m`/`%W`. -/
def pad2 (n : ℤ) : String := if 0 ≤ n ∧ n < 10 then "0" ++ toString n else toString n

/-- `close_date.strftime('%Y-%m')`. -/
def Date.monthKey (d : Date) : String := toString d.year ++ "-" ++ pad2 d.month

/-- `close_date.strftime('%Y-%W')`. -/
def Date.weekKey (d : Date) : String := toString d.year ++ "-" ++ pad2 d.weekW

/-- `date.isoformat()` / `strftime('%Y-%m-%d')`. -/
def Date.render (d : Date) : String :=
  toString d.year ++ "-" ++ pad2 d.month ++ "-" ++ pad2 d.day

/-- Python dict lookup (`d.get(k)` / `d[k]` returning `None` on miss). -/
def dict_get {α : Type} : List (String × α) → String → Option α
  | [], _ => none
  | (k', v) :: rest, k => if k' = k then some v else dict_get rest k

/-- Python dict assignment `d[k] = v` (update in place, append if new). -/
def dict_set {α : Type} : List (String × α) → String → α → List (String × α)
  | [], k, v => [(k, v)]
  | (k', v') :: rest, k, v =>
      if k' = k then (k, v) :: rest else (k', v') :: dict_set rest k v

/-- `min(xs, default=dflt)`. -/
def pyMin (xs : List ℚ) (dflt : ℚ) : ℚ :=
  match xs with
  | [] => dflt
  | x :: rest => rest.foldl min x

/-- `max(xs, default=dflt)`. -/
def pyMax (xs : List ℚ) (dflt : ℚ) : ℚ :=
  match xs with
  | [] => dflt
  | x :: rest => rest.foldl max x

/-- `min` where `none` plays `float('inf')`. -/
def optMin : Option ℚ → Option ℚ → Option ℚ
  | none, b => b
  | some x, none => some x
  | some x, some y => some (min x y)

/-- `min(list)` as an option (`none` for the empty list, i.e. `inf`). -/
def listMin : List ℚ → Option ℚ
  | [] => none
  | x :: rest => some (rest.foldl min x)

/-! ## reporting/models.py (dataclasses, floats as ℚ) -/

/-- `models.OptionLeg`; fields the collector never sets keep their
dataclass defaults (`None`). -/
structure OptionLeg where
  type : String
  strike : ℚ
  is_short : Bool
  entry_price : Option ℚ
  current_price : ℚ
  expiration : Date
  symbol : String
  implied_volatility : Option ℚ := none
  delta : Option ℚ := none
  theta : Option ℚ := none
  gamma : Option ℚ := none
  vega : Option ℚ := none
deriving DecidableEq

/-- `models.TradeData`. -/
structure TradeData where
  symbol : String
  expiration : Date
  days_left : ℤ
  entry_credit : ℚ
  current_value : ℚ
  pnl : ℚ
  pnl_percent : ℚ
  legs : List OptionLeg
  strategy_type : String
  delta : Option ℚ := none
  theta : Option ℚ := none
deriving DecidableEq

/-- `models.CompletedTradeData`. -/
structure CompletedTradeData where
  symbol : String
  entry_date : Date
  expiration_date : Date
  close_date : Date
  entry_credit : ℚ
  exit_debit : ℚ
  actual_profit_loss : ℚ
  profit_loss_percent : ℚ
  strategy_type : String
  exit_type : String
  num_contracts : ℤ
deriving DecidableEq

/-- `models.RiskMetrics`. -/
structure RiskMetrics where
  total_delta : ℚ
  total_theta : ℚ
  total_gamma : ℚ
  total_vega : ℚ
  position_size_pct : ℚ
  correlation_score : ℚ := 0
  max_loss : ℚ
deriving DecidableEq

/-- `models.PerformanceMetrics`; `sharpe` is the source's Sharpe-ratio
field, `profit_factor` is `∞` when gross loss is zero. -/
structure PerformanceMetrics where
  profit_factor : ExtQ
  sharpe : ℚ
  avg_hold_time : ℚ
  win_rate : ℚ
  avg_winner_size : ℚ
  avg_loser_size : ℚ
  largest_winner : ℚ
  largest_loser : ℚ
  monthly_pnl : List (String × ℚ)
  weekly_pnl : List (String × ℚ)
deriving DecidableEq

/-- `models.MarketContext` (`vix_price`/`spy_price` may carry Python
`None` when the stored record lacks a `last` value). -/
structure MarketContext where
  vix_price : Option ℚ
  vix_change : ℚ
  spy_price : Option ℚ
  spy_change : ℚ
  market_status : String
deriving DecidableEq

/-! ## reporting/analytics.py -/

/-- `AnalyticsService.calculate_risk_metrics`. -/
def calculate_risk_metrics (account_size : ℚ) (active_trades : List TradeData)
    (completed_trades : List CompletedTradeData) : RiskMetrics :=
  let total_delta := (active_trades.map (fun t => t.delta.getD 0)).sum
  let total_theta := (active_trades.map (fun t => t.theta.getD 0)).sum
  let total_gamma := (active_trades.map (fun t => (t.legs.map (fun l => l.gamma.getD 0)).sum)).sum
  let total_vega := (active_trades.map (fun t => (t.legs.map (fun l => l.vega.getD 0)).sum)).sum
  let total_risk := (active_trades.map (fun t => |t.current_value|)).sum
  let position_size_pct := if 0 < account_size then total_risk / account_size * 100 else 0
  let min_active_pnl := listMin (active_trades.map (·.pnl))
  let min_completed_pnl := listMin (completed_trades.map (·.actual_profit_loss))
  let max_loss := (optMin min_active_pnl min_completed_pnl).getD 0
  { total_delta := total_delta, total_theta := total_theta,
    total_gamma := total_gamma, total_vega := total_vega,
    position_size_pct := position_size_pct, max_loss := max_loss }

/-- `[t for t in completed_trades if t.actual_profit_loss > 0]`. -/
def winning_completed (completed_trades : List CompletedTradeData) : List CompletedTradeData :=
  completed_trades.filter (fun t => decide (0 < t.actual_profit_loss))

/-- `[t for t in completed_trades if t.actual_profit_loss <= 0]`. -/
def losing_trades (completed_trades : List CompletedTradeData) : List CompletedTradeData :=
  completed_trades.filter (fun t => decide (t.actual_profit_loss ≤ 0))

/-- `gross_profit = sum(t.actual_profit_loss for t in winning_completed)`. -/
def gross_profit (completed_trades : List CompletedTradeData) : ℚ :=
  ((winning_completed completed_trades).map (·.actual_profit_loss)).sum

/-- `gross_loss = abs(sum(t.actual_profit_loss for t in losing_trades))`. -/
def gross_loss (completed_trades : List CompletedTradeData) : ℚ :=
  |((losing_trades completed_trades).map (·.actual_profit_loss)).sum|

/-- `AnalyticsService._calculate_periodic_pnl` (defaultdict accumulation). -/
def periodic_pnl (key : CompletedTradeData → String)
    (completed_trades : List CompletedTradeData) : List (String × ℚ) :=
  completed_trades.foldl
    (fun m t => dict_set m (key t) ((dict_get m (key t)).getD 0 + t.actual_profit_loss)) []

/-- `AnalyticsService.calculate_performance_metrics` (`sq` models
`math.sqrt`). -/
def calculate_performance_metrics (sq : ℚ → ℚ) (active_trades : List TradeData)
    (completed_trades : List CompletedTradeData) : PerformanceMetrics :=
  let winning_active := active_trades.filter (fun t => decide (0 < t.pnl))
  let total_winning_trades := (winning_completed completed_trades).length + winning_active.length
  let total_considered_trades := completed_trades.length + active_trades.length
  let win_rate : ℚ :=
    if 0 < total_considered_trades then
      (total_winning_trades : ℚ) / (total_considered_trades : ℚ) * 100 else 0
  let gp := gross_profit completed_trades
  let gl := gross_loss completed_trades
  let profit_factor : ExtQ := if gl ≠ 0 then .fin (gp / gl) else .inf
  let avg_winner_size : ℚ :=
    if (winning_completed completed_trades) ≠ [] then
      gp / ((winning_completed completed_trades).length : ℚ) else 0
  let avg_loser_size : ℚ :=
    if (losing_trades completed_trades) ≠ [] then
      gl / ((losing_trades completed_trades).length : ℚ) else 0
  let largest_winner := pyMax ((winning_completed completed_trades).map (·.actual_profit_loss)) 0
  let largest_loser := pyMin ((losing_trades completed_trades).map (·.actual_profit_loss)) 0
  let hold_times : List ℤ :=
    completed_trades.map (fun t => t.close_date.toDays - t.entry_date.toDays)
  let avg_hold_time : ℚ :=
    if hold_times ≠ [] then ((hold_times.map (Int.cast : ℤ → ℚ)).sum) / (hold_times.length : ℚ)
    else 0
  let monthly := periodic_pnl (fun t => t.close_date.monthKey) completed_trades
  let weekly := periodic_pnl (fun t => t.close_date.weekKey) completed_trades
  let returns := completed_trades.map (·.profit_loss_percent)
  let sharpe : ℚ :=
    if returns ≠ [] then
      let avg_return := returns.sum / (returns.length : ℚ)
      let std_dev := sq (((returns.map (fun r => (r - avg_return) * (r - avg_return))).sum)
        / (returns.length : ℚ))
      if std_dev ≠ 0 then avg_return / std_dev else 0
    else 0
  { profit_factor := profit_factor, sharpe := sharpe,
    avg_hold_time := avg_hold_time, win_rate := win_rate,
    avg_winner_size := avg_winner_size, avg_loser_size := avg_loser_size,
    largest_winner := largest_winner, largest_loser := largest_loser,
    monthly_pnl := monthly, weekly_pnl := weekly }

/-- The P&L-percent series of a trade list (`[t.pnl_percent for t in ..]`). -/
def returns_of (trades : List TradeData) : List ℚ := trades.map (·.pnl_percent)

/-- `sum(rs) / len(rs)`. -/
def mean_of (rs : List ℚ) : ℚ := rs.sum / (rs.length : ℚ)

/-- `sum((r - mean)**2 for r in rs)` (the unnormalised variance the source
tests against zero). -/
def var_of (rs : List ℚ) : ℚ :=
  (rs.map (fun r => (r - mean_of rs) * (r - mean_of rs))).sum

/-- `AnalyticsService._calculate_correlation` (`sq` models `math.sqrt`;
the covariance runs over `zip(returns1, returns2)` exactly as in the
source, truncating to the shorter series). -/
def correlation (sq : ℚ → ℚ) (trades1 trades2 : List TradeData) : ℚ :=
  let returns1 := returns_of trades1
  let returns2 := returns_of trades2
  if returns1 = [] ∨ returns2 = [] then 0
  else
    let mean1 := mean_of returns1
    let mean2 := mean_of returns2
    let variance1 := var_of returns1
    let variance2 := var_of returns2
    if variance1 = 0 ∨ variance2 = 0 then 0
    else
      let covariance := ((returns1.zip returns2).map
        (fun p => (p.1 - mean1) * (p.2 - mean2))).sum
      let corr := covariance / sq (variance1 * variance2)
      max (min corr 1) (-1)

/-- The nested-dict correlation matrix (`defaultdict(dict)`). -/
abbrev CorrMat : Type := List (String × List (String × ℚ))

/-- `matrix[k1][k2] = v` on the nested dict. -/
def mat_set (m : CorrMat) (k1 k2 : String) (v : ℚ) : CorrMat :=
  dict_set m k1 (dict_set ((dict_get m k1).getD []) k2 v)

/-- `matrix.get(k1, {}).get(k2)` on the nested dict. -/
def mat_get (m : CorrMat) (k1 k2 : String) : Option ℚ :=
  (dict_get m k1).bind (fun inner => dict_get inner k2)

/-- `[t for t in active_trades if t.symbol == s]`. -/
def trades_for (active_trades : List TradeData) (s : String) : List TradeData :=
  active_trades.filter (fun t => decide (t.symbol = s))

/-- Helper for `dedup_first`: skips symbols already emitted. -/
def dedup_first_aux (seen : List String) : List String → List String
  | [] => []
  | s :: rest =>
      if s ∈ seen then dedup_first_aux seen rest
      else s :: dedup_first_aux (s :: seen) rest

/-- First-occurrence deduplication, modelling `list({t.symbol for t in ..})`
(set iteration order is unspecified; the matrix properties proved below are
order-independent). -/
def dedup_first (l : List String) : List String := dedup_first_aux [] l

/-- Inner loop of `calculate_correlation_matrix`:
`for symbol2 in symbols[i:]`. -/
def corr_inner (sq : ℚ → ℚ) (trades : List TradeData) (s1 : String) :
    List String → CorrMat → CorrMat
  | [], m => m
  | s2 :: rest, m =>
      let t1 := trades_for trades s1
      let t2 := trades_for trades s2
      let m' :=
        if t1 ≠ [] ∧ t2 ≠ [] then
          let c := correlation sq t1 t2
          mat_set (mat_set m s1 s2 c) s2 s1 c
        else m
      corr_inner sq trades s1 rest m'

/-- Outer loop of `calculate_correlation_matrix`:
`for i, symbol1 in enumerate(symbols)`. -/
def corr_outer (sq : ℚ → ℚ) (trades : List TradeData) :
    List String → CorrMat → CorrMat
  | [], m => m
  | s1 :: rest, m => corr_outer sq trades rest (corr_inner sq trades s1 (s1 :: rest) m)

/-- `AnalyticsService.calculate_correlation_matrix`. -/
def calculate_correlation_matrix (sq : ℚ → ℚ) (active_trades : List TradeData) : CorrMat :=
  corr_outer sq active_trades (dedup_first (active_trades.map (·.symbol))) []

/-! ## database/db_manager.py — schema rows and store state -/

/-- Python-level errors surfacing from the embedded operations. -/
inductive PyErr where
  | valueError : String → PyErr
  | keyError : String → PyErr
  | sqlErr : String → PyErr
deriving DecidableEq

/-- A row of `active_trades` (schema in `initialize_database`). -/
structure ActiveTradeRow where
  trade_id : ℕ
  symbol : String
  underlying_price : ℚ
  trade_type : String
  entry_date : ℚ
  expiration_date : Date
  short_put : Option ℚ
  long_put : Option ℚ
  short_put_symbol : Option String
  long_put_symbol : Option String
  short_call : Option ℚ
  long_call : Option ℚ
  short_call_symbol : Option String
  long_call_symbol : Option String
  net_credit : ℚ
  num_contracts : ℤ
  status : String
  created_at : ℚ
  updated_at : ℚ
deriving DecidableEq

/-- A row of `completed_trades`. -/
structure CompletedTradeRow where
  trade_id : ℕ
  symbol : String
  underlying_entry_price : ℚ
  underlying_exit_price : ℚ
  trade_type : String
  entry_date : ℚ
  expiration_date : Date
  close_date : ℚ
  short_put : Option ℚ
  long_put : Option ℚ
  short_put_symbol : Option String
  long_put_symbol : Option String
  short_call : Option ℚ
  long_call : Option ℚ
  short_call_symbol : Option String
  long_call_symbol : Option String
  entry_credit : ℚ
  exit_debit : ℚ
  num_contracts : ℤ
  actual_profit_loss : ℚ
  exit_type : String
  created_at : ℚ
  completed_at : ℚ
deriving DecidableEq

/-- A row of `trade_status_history` (written by the `log_status_change`
trigger). -/
structure HistoryRow where
  trade_id : ℕ
  old_status : String
  new_status : String
  change_date : ℚ
deriving DecidableEq

/-- A row of `option_price_tracking` (price/flag columns; see the module
comment for the omitted passthrough columns). -/
structure TrackRow where
  tracking_id : ℕ
  trade_id : ℕ
  tracking_date : Date
  option_symbol : String
  bid : Option ℚ
  ask : Option ℚ
  last : Option ℚ
  mark : Option ℚ
  volume : Option ℤ
  open_interest : Option ℤ
  is_market_closed : Bool
  is_complete : Bool
  last_update_time : ℕ
deriving DecidableEq

/-- The persistent store: the four tables plus rowid/timestamp counters
(`clock` stands for `CURRENT_TIMESTAMP` ticks, strictly increasing). -/
structure DBState where
  active : List ActiveTradeRow
  completed : List CompletedTradeRow
  history : List HistoryRow
  tracking : List TrackRow
  next_trade_id : ℕ
  next_tracking_id : ℕ
  clock : ℕ
deriving DecidableEq

/-- Number of `active_trades` rows carrying `trade_id`. -/
def countActive (st : DBState) (tid : ℕ) : ℕ :=
  (st.active.filter (fun r => decide (r.trade_id = tid))).length

/-- Number of `completed_trades` rows carrying `trade_id`. -/
def countCompleted (st : DBState) (tid : ℕ) : ℕ :=
  (st.completed.filter (fun r => decide (r.trade_id = tid))).length

/-- Insertion sort key step for `ORDER BY expiration_date ASC`. -/
def insertByExp (r : ActiveTradeRow) : List ActiveTradeRow → List ActiveTradeRow
  | [] => [r]
  | x :: rest =>
      if r.expiration_date.toDays ≤ x.expiration_date.toDays then r :: x :: rest
      else x :: insertByExp r rest

/-- `DatabaseManager.get_active_trades()` (no status filter):
`SELECT * FROM active_trades ORDER BY expiration_date ASC`. -/
def get_active_trades (st : DBState) : List ActiveTradeRow :=
  st.active.foldr insertByExp []

/-- Input dict for `save_new_trade` (all leg keys must be bound for the
named-parameter INSERT; unpopulated slots are `None`). -/
structure NewTradeData where
  symbol : String
  underlying_price : ℚ
  trade_type : String
  expiration_date : Date
  net_credit : ℚ
  num_contracts : ℤ
  short_put : Option ℚ
  long_put : Option ℚ
  short_put_symbol : Option String
  long_put_symbol : Option String
  short_call : Option ℚ
  long_call : Option ℚ
  short_call_symbol : Option String
  long_call_symbol : Option String
deriving DecidableEq

/-- `DatabaseManager.save_new_trade`: the INSERT is guarded only by the
schema CHECK constraints (`trade_type IN ('BULL_PUT','BEAR_CALL',
'IRON_CONDOR')`, `net_credit > 0`, `num_contracts > 0`); no leg-slot
validation is performed anywhere. -/
def save_new_trade (now : ℚ) (st : DBState) (d : NewTradeData) :
    Except PyErr (DBState × ℕ) :=
  if ¬ (d.trade_type = "BULL_PUT" ∨ d.trade_type = "BEAR_CALL" ∨
        d.trade_type = "IRON_CONDOR") then
    .error (.sqlErr "CHECK constraint failed: trade_type")
  else if ¬ 0 < d.net_credit then
    .error (.sqlErr "CHECK constraint failed: net_credit")
  else if ¬ 0 < d.num_contracts then
    .error (.sqlErr "CHECK constraint failed: num_contracts")
  else
    let row : ActiveTradeRow :=
      { trade_id := st.next_trade_id, symbol := d.symbol,
        underlying_price := d.underlying_price, trade_type := d.trade_type,
        entry_date := now, expiration_date := d.expiration_date,
        short_put := d.short_put, long_put := d.long_put,
        short_put_symbol := d.short_put_symbol, long_put_symbol := d.long_put_symbol,
        short_call := d.short_call, long_call := d.long_call,
        short_call_symbol := d.short_call_symbol, long_call_symbol := d.long_call_symbol,
        net_credit := d.net_credit, num_contracts := d.num_contracts,
        status := "OPEN", created_at := now, updated_at := now }
    .ok ({ st with
           active := st.active ++ [row]
           next_trade_id := st.next_trade_id + 1 }, st.next_trade_id)

/-- The UPDATE plus its two triggers (`update_active_trades_timestamp`,
`log_status_change` for rows whose status actually changes). -/
def applyStatusUpdate (now : ℚ) (st : DBState) (tid : ℕ) (s : String) : DBState :=
  { st with
    active := st.active.map (fun r =>
      if r.trade_id = tid then { r with status := s, updated_at := now } else r)
    history := st.history ++
      ((st.active.filter (fun r => decide (r.trade_id = tid ∧ ¬ r.status = s))).map
        (fun r => { trade_id := r.trade_id, old_status := r.status,
                    new_status := s, change_date := now })) }

/-- `DatabaseManager.update_trade_status`: only membership in
`{OPEN, CLOSING, EXPIRED}` is validated; the current status is never
consulted. -/
def update_trade_status (now : ℚ) (st : DBState) (tid : ℕ) (new_status : String) :
    Except PyErr DBState :=
  if ¬ (new_status = "OPEN" ∨ new_status = "CLOSING" ∨ new_status = "EXPIRED") then
    .error (.valueError "Invalid status")
  else
    .ok (applyStatusUpdate now st tid new_status)

/-- Exit dict for `complete_trade` (the four required keys). -/
structure ExitData where
  underlying_exit_price : ℚ
  exit_debit : ℚ
  actual_profit_loss : ℚ
  exit_type : String
deriving DecidableEq

/-- `DatabaseManager.complete_trade`: SELECT, INSERT into
`completed_trades`, DELETE from `active_trades`, all on one connection
with a single final commit.  The returned state is the durable store the
caller observes: on any error the transaction is rolled back (connection
closed without commit), so the original state is returned. -/
def complete_trade (now : ℚ) (st : DBState) (tid : ℕ) (ex : ExitData) :
    DBState × Option PyErr :=
  match st.active.find? (fun r => decide (r.trade_id = tid)) with
  | none => (st, some (.valueError "No active trade found"))
  | some tr =>
    let row : CompletedTradeRow :=
      { trade_id := tr.trade_id, symbol := tr.symbol,
        underlying_entry_price := tr.underlying_price,
        underlying_exit_price := ex.underlying_exit_price,
        trade_type := tr.trade_type, entry_date := tr.entry_date,
        expiration_date := tr.expiration_date, close_date := now,
        short_put := tr.short_put, long_put := tr.long_put,
        short_put_symbol := tr.short_put_symbol, long_put_symbol := tr.long_put_symbol,
        short_call := tr.short_call, long_call := tr.long_call,
        short_call_symbol := tr.short_call_symbol, long_call_symbol := tr.long_call_symbol,
        entry_credit := tr.net_credit, exit_debit := ex.exit_debit,
        num_contracts := tr.num_contracts,
        actual_profit_loss := ex.actual_profit_loss, exit_type := ex.exit_type,
        created_at := now, completed_at := now }
    if st.completed.any (fun c => decide (c.trade_id = tid)) then
      (st, some (.sqlErr "UNIQUE constraint failed: completed_trades.trade_id"))
    else if ¬ 0 < row.entry_credit then
      (st, some (.sqlErr "CHECK constraint failed: entry_credit"))
    else if ¬ 0 ≤ row.exit_debit then
      (st, some (.sqlErr "CHECK constraint failed: exit_debit"))
    else if ¬ (row.exit_type = "EXPIRED" ∨ row.exit_type = "CLOSED_EARLY" ∨
               row.exit_type = "STOPPED_OUT" ∨ row.exit_type = "ROLLED") then
      (st, some (.sqlErr "CHECK constraint failed: exit_type"))
    else if ¬ 0 < row.num_contracts then
      (st, some (.sqlErr "CHECK constraint failed: num_contracts"))
    else
      ({ st with
         completed := st.completed ++ [row]
         active := st.active.filter (fun r => decide (¬ r.trade_id = tid)) }, none)

/-! ## services/trade_manager.py -/

/-- SQL column values as seen through `dict(sqlite3.Row)`. -/
inductive DbVal where
  | i : ℤ → DbVal
  | q : ℚ → DbVal
  | s : String → DbVal
  | null : DbVal
deriving DecidableEq

/-- `dict(row)` for a `SELECT * FROM active_trades` row: exactly the 19
schema columns, in declaration order.  There is no `spread_type` column. -/
def active_row_dict (r : ActiveTradeRow) : List (String × DbVal) :=
  [("trade_id", .i r.trade_id), ("symbol", .s r.symbol),
   ("underlying_price", .q r.underlying_price), ("trade_type", .s r.trade_type),
   ("entry_date", .q r.entry_date), ("expiration_date", .s r.expiration_date.render),
   ("short_put", (r.short_put.map .q).getD .null),
   ("long_put", (r.long_put.map .q).getD .null),
   ("short_put_symbol", (r.short_put_symbol.map .s).getD .null),
   ("long_put_symbol", (r.long_put_symbol.map .s).getD .null),
   ("short_call", (r.short_call.map .q).getD .null),
   ("long_call", (r.long_call.map .q).getD .null),
   ("short_call_symbol", (r.short_call_symbol.map .s).getD .null),
   ("long_call_symbol", (r.long_call_symbol.map .s).getD .null),
   ("net_credit", .q r.net_credit), ("num_contracts", .i r.num_contracts),
   ("status", .s r.status), ("created_at", .q r.created_at),
   ("updated_at", .q r.updated_at)]

/-- The expired-branch P&L of `process_active_trades`:
`trade['spread_type']` raises `KeyError` when the key is absent. -/
def expired_actual_pnl (tr : ActiveTradeRow) : Except PyErr ℚ :=
  match dict_get (active_row_dict tr) "spread_type" with
  | none => .error (.keyError "spread_type")
  | some v =>
      if v = DbVal.s "CREDIT" then .ok (tr.net_credit * (tr.num_contracts : ℚ))
      else .ok (-tr.net_credit * (tr.num_contracts : ℚ))

/-- Statistics dict of `TradeManager.process_active_trades`. -/
structure TMStats where
  total_trades : ℕ
  active_trades : ℕ
  expired_trades : ℕ
  errors : ℕ
deriving DecidableEq

/-- One iteration of the `process_active_trades` loop over a trade (the
per-trade `try`/`except` increments `errors` and keeps whatever the
already-committed statements changed).  `now` is `datetime.now()` in days
since the epoch; `days_to_expiry = (expiration_midnight - now).days` is
the floor of their difference.  The non-expired branch
(`_process_active_trade`) only logs and never writes the store. -/
def process_one_trade (now : ℚ) (st : DBState) (stats : TMStats)
    (tr : ActiveTradeRow) : DBState × TMStats :=
  let days_to_expiry : ℤ := ⌊(tr.expiration_date.toDays : ℚ) - now⌋
  if days_to_expiry < 0 then
    match update_trade_status now st tr.trade_id "EXPIRED" with
    | .error _ => (st, { stats with errors := stats.errors + 1 })
    | .ok st1 =>
      match expired_actual_pnl tr with
      | .error _ => (st1, { stats with errors := stats.errors + 1 })
      | .ok pnl =>
        let ex : ExitData :=
          { underlying_exit_price := tr.underlying_price, exit_debit := 0,
            actual_profit_loss := pnl, exit_type := "EXPIRED" }
        match complete_trade now st1 tr.trade_id ex with
        | (st2, some _) => (st2, { stats with errors := stats.errors + 1 })
        | (st2, none) => (st2, { stats with expired_trades := stats.expired_trades + 1 })
  else
    (st, { stats with active_trades := stats.active_trades + 1 })

/-- `TradeManager.process_active_trades`: one lifecycle pass over the
snapshot returned by `get_active_trades`. -/
def process_active_trades (now : ℚ) (st : DBState) : DBState × TMStats :=
  let trades := get_active_trades st
  let init : TMStats :=
    { total_trades := trades.length, active_trades := 0, expired_trades := 0, errors := 0 }
  trades.foldl (fun acc tr => process_one_trade now acc.1 acc.2 tr) (st, init)

/-! ## services/price_tracking.py -/

/-- The quote payload assembled by `price_service.get_option_data`
(fields the tracking table stores and the sync loop branches on). -/
structure QuoteData where
  bid : Option ℚ
  ask : Option ℚ
  last : Option ℚ
  mark : Option ℚ
  volume : Option ℤ
  open_interest : Option ℤ
  is_market_closed : Bool
deriving DecidableEq

/-- Sync statistics (`stats` dict of `update_prices`, shared under
`stats_lock`; timing counters are wall-clock and not modelled). -/
structure SyncStats where
  trades_processed : ℕ
  options_checked : ℕ
  records_created : ℕ
  records_updated : ℕ
  records_completed : ℕ
  errors : ℕ
deriving DecidableEq

/-- `DatabaseManager.get_active_price_tracking`: the most recent
(`ORDER BY last_update_time DESC LIMIT 1`) row for the trade with
`tracking_date = DATE('now')` and `NOT is_complete`.  Note the filter is
keyed by trade only — the option symbol is not part of the WHERE clause —
and complete rows are excluded. -/
def get_active_price_tracking (today : Date) (st : DBState) (tid : ℕ) :
    Option TrackRow :=
  let cands := st.tracking.filter (fun r =>
    decide (r.trade_id = tid ∧ r.tracking_date = today ∧ r.is_complete = false))
  match cands with
  | [] => none
  | c :: rest => some (rest.foldl
      (fun best r => if best.last_update_time < r.last_update_time then r else best) c)

/-- `tracking_data = {'option_symbol': symbol, 'tracking_date': today,
**option_data}`. -/
structure TrackingData where
  option_symbol : String
  tracking_date : Date
  quote : QuoteData
deriving DecidableEq

/-- `DatabaseManager.create_option_price_tracking`: INSERT (is_complete
defaults to FALSE, last_update_time to CURRENT_TIMESTAMP). -/
def create_option_price_tracking (st : DBState) (tid : ℕ) (td : TrackingData) : DBState :=
  let row : TrackRow :=
    { tracking_id := st.next_tracking_id, trade_id := tid,
      tracking_date := td.tracking_date, option_symbol := td.option_symbol,
      bid := td.quote.bid, ask := td.quote.ask, last := td.quote.last,
      mark := td.quote.mark, volume := td.quote.volume,
      open_interest := td.quote.open_interest,
      is_market_closed := td.quote.is_market_closed, is_complete := false,
      last_update_time := st.clock }
  { st with
    tracking := st.tracking ++ [row]
    next_tracking_id := st.next_tracking_id + 1
    clock := st.clock + 1 }

/-- `DatabaseManager.update_option_price`: UPDATE of exactly the provided
fields (which include `option_symbol` and `tracking_date`); neither
`is_complete` nor `last_update_time` is touched. -/
def update_option_price (st : DBState) (trackingId : ℕ) (td : TrackingData) : DBState :=
  { st with
    tracking := st.tracking.map (fun r =>
      if r.tracking_id = trackingId then
        { r with
          option_symbol := td.option_symbol
          tracking_date := td.tracking_date
          bid := td.quote.bid
          ask := td.quote.ask
          last := td.quote.last
          mark := td.quote.mark
          volume := td.quote.volume
          open_interest := td.quote.open_interest
          is_market_closed := td.quote.is_market_closed }
      else r) }

/-- `DatabaseManager.mark_tracking_complete`. -/
def mark_tracking_complete (st : DBState) (trackingId : ℕ) : DBState :=
  { st with
    tracking := st.tracking.map (fun r =>
      if r.tracking_id = trackingId then
        { r with is_complete := true, is_market_closed := true }
      else r) }

/-- `PriceTrackingService._process_single_option` for one leg (the model
is the sequential interleaving where legs complete in submission order;
within one leg the lookup → fetch → upsert steps are sequential as in the
source).  `getQuote` models `price_service.get_option_data`. -/
def process_single_option (getQuote : String → Option QuoteData) (today : Date)
    (tid : ℕ) (sym : String) (st : DBState) (stats : SyncStats) :
    DBState × SyncStats :=
  let existing := get_active_price_tracking today st tid
  match existing with
  | some r =>
    if r.is_complete then (st, stats)
    else
      match getQuote sym with
      | none => (st, { stats with options_checked := stats.options_checked + 1 })
      | some q =>
        let stats1 := { stats with options_checked := stats.options_checked + 1 }
        let td : TrackingData :=
          { option_symbol := sym, tracking_date := today, quote := q }
        let st1 := update_option_price st r.tracking_id td
        let stats2 := { stats1 with records_updated := stats1.records_updated + 1 }
        if q.is_market_closed then
          (mark_tracking_complete st1 r.tracking_id,
           { stats2 with records_completed := stats2.records_completed + 1 })
        else (st1, stats2)
  | none =>
      match getQuote sym with
      | none => (st, { stats with options_checked := stats.options_checked + 1 })
      | some q =>
        let stats1 := { stats with options_checked := stats.options_checked + 1 }
        let td : TrackingData :=
          { option_symbol := sym, tracking_date := today, quote := q }
        let st1 := create_option_price_tracking st tid td
        let stats2 := { stats1 with records_created := stats1.records_created + 1 }
        -- `if option_data.get('is_market_closed'): if existing:` — existing is
        -- None on this branch, so the newly created record is never completed.
        (st1, stats2)

/-- `PriceTrackingService._get_trade_option_symbols` (order: short call,
long call, short put, long put). -/
def get_trade_option_symbols (tr : ActiveTradeRow) : List String :=
  (tr.short_call_symbol.toList ++ tr.long_call_symbol.toList ++
   tr.short_put_symbol.toList ++ tr.long_put_symbol.toList)

/-- `PriceTrackingService._process_trade_options` for one trade
(sequential model of the inner pool). -/
def process_trade_options (getQuote : String → Option QuoteData) (today : Date)
    (tr : ActiveTradeRow) (st : DBState) (stats : SyncStats) : DBState × SyncStats :=
  let syms := get_trade_option_symbols tr
  let res := syms.foldl
    (fun acc sym => process_single_option getQuote today tr.trade_id sym acc.1 acc.2)
    (st, stats)
  (res.1, { res.2 with trades_processed := res.2.trades_processed + 1 })

/-! ## reporting/collector.py -/

/-- One entry of the collector's per-strategy leg table: (symbol slot,
strike slot, is_short, option type). -/
structure LegDef where
  sym_slot : ActiveTradeRow → Option String
  strike_slot : ActiveTradeRow → Option ℚ
  is_short : Bool
  type_str : String

/-- The put-pair rows of the collector's `leg_definitions` table
(shared by `BULL_PUT` and `BEAR_PUT`). -/
def put_pair_defs : List LegDef :=
  [⟨(·.short_put_symbol), (·.short_put), true, "put"⟩,
   ⟨(·.long_put_symbol), (·.long_put), false, "put"⟩]

/-- The call-pair rows of the collector's `leg_definitions` table
(shared by `BEAR_CALL` and `BULL_CALL`). -/
def call_pair_defs : List LegDef :=
  [⟨(·.short_call_symbol), (·.short_call), true, "call"⟩,
   ⟨(·.long_call_symbol), (·.long_call), false, "call"⟩]

/-- `leg_definitions` of `ReportDataCollector._process_trade`. -/
def leg_definitions (trade_type : String) : Option (List LegDef) :=
  if trade_type = "BULL_PUT" then some put_pair_defs
  else if trade_type = "BEAR_CALL" then some call_pair_defs
  else if trade_type = "IRON_CONDOR" then some (put_pair_defs ++ call_pair_defs)
  else if trade_type = "BULL_CALL" then some call_pair_defs
  else if trade_type = "BEAR_PUT" then some put_pair_defs
  else none

/-- The per-leg price resolution ladder of `_process_trade`: mark, else
last, else `(bid+ask)/2`, else `0` with the missing-data flag; a missing
or failing repository read also yields `0` with the flag. -/
def resolve_leg_price (priceRow : Option TrackRow) : ℚ × Bool :=
  match priceRow with
  | none => (0, true)
  | some pr =>
    match pr.mark with
    | some m => (m, false)
    | none =>
      match pr.last with
      | some l => (l, false)
      | none =>
        match pr.bid, pr.ask with
        | some b, some a => ((b + a) / 2, false)
        | _, _ => (0, true)

/-- Whether a leg slot is populated (`if not option_symbol or strike_price
is None: continue`; Python truthiness makes the empty string unpopulated). -/
def populated_leg (tr : ActiveTradeRow) (d : LegDef) : Option (String × ℚ) :=
  match d.sym_slot tr, d.strike_slot tr with
  | some sym, some strike => if sym = "" then none else some (sym, strike)
  | _, _ => none

/-- One iteration of the leg loop of `_process_trade`, accumulating
(legs list, running legsValue, missing-data flag). -/
def leg_step (getPrice : String → Option TrackRow) (tr : ActiveTradeRow)
    (expiration : Date) (acc : List OptionLeg × ℚ × Bool) (d : LegDef) :
    List OptionLeg × ℚ × Bool :=
  match populated_leg tr d with
  | none => acc
  | some (sym, strike) =>
    let pr := resolve_leg_price (getPrice sym)
    let leg : OptionLeg :=
      { type := d.type_str, strike := strike, is_short := d.is_short,
        entry_price := none, current_price := pr.1, expiration := expiration,
        symbol := sym }
    let mult : ℚ := if d.is_short then -1 else 1
    (acc.1 ++ [leg], acc.2.1 + pr.1 * mult, acc.2.2 || pr.2)

/-- The spec's description of the running sum: the resolved price times
`(−1 if the leg is short else +1)`, summed over the populated legs.
(Stated from the spec sentence; the theorems relate `_process_trade`'s
accumulated value to this sum.) -/
def legs_value_spec (getPrice : String → Option TrackRow) (tr : ActiveTradeRow)
    (defs : List LegDef) : ℚ :=
  ((defs.filterMap (fun d => (populated_leg tr d).map (fun p => (p.1, d.is_short)))).map
    (fun leg => (resolve_leg_price (getPrice leg.1)).1 * (if leg.2 then -1 else 1))).sum

/-- `ReportDataCollector._process_trade` (`now` is `datetime.now()` in
days since the epoch, used only for `days_left`). -/
def process_trade (getPrice : String → Option TrackRow) (now : ℚ)
    (tr : ActiveTradeRow) : Option TradeData :=
  if tr.trade_type = "" ∨ tr.symbol = "" then none
  else
    match leg_definitions tr.trade_type with
    | none => none
    | some defs =>
      let res := defs.foldl (leg_step getPrice tr tr.expiration_date) ([], 0, false)
      if res.1 = [] then none
      else
        let current_legs_value := res.2.1
        let pnl_per_contract := -tr.net_credit + current_legs_value
        let total_pnl := pnl_per_contract * (tr.num_contracts : ℚ) * 100
        let denominator := |tr.net_credit| * (tr.num_contracts : ℚ) * 100
        let pnl_percent := if denominator ≠ 0 then total_pnl / denominator * 100 else 0
        some
          { symbol := tr.symbol, expiration := tr.expiration_date,
            days_left := ⌊(tr.expiration_date.toDays : ℚ) - now⌋,
            entry_credit := tr.net_credit * (tr.num_contracts : ℚ) * 100,
            current_value := -current_legs_value * (tr.num_contracts : ℚ) * 100,
            pnl := total_pnl, pnl_percent := pnl_percent,
            legs := res.1, strategy_type := tr.trade_type }

/-- `ReportDataCollector._process_completed_trade` (dates are typed in the
model, so the `strptime` failure branch cannot fire; the P&L percentage is
`pnl / abs(entry_credit) * 100`, `0` when the entry credit is `0`). -/
def process_completed_trade (row : CompletedTradeRow) (entryD closeD : Date) :
    CompletedTradeData :=
  let pnl := row.actual_profit_loss
  let plp := if row.entry_credit ≠ 0 then pnl / |row.entry_credit| * 100 else 0
  { symbol := row.symbol, entry_date := entryD,
    expiration_date := row.expiration_date, close_date := closeD,
    entry_credit := row.entry_credit, exit_debit := row.exit_debit,
    actual_profit_loss := pnl, profit_loss_percent := plp,
    strategy_type := row.trade_type, exit_type := row.exit_type,
    num_contracts := row.num_contracts }

/-- A completed row paired with its rendered timestamp dates (the TEXT
`entry_date`/`close_date` columns parsed back by the collector). -/
structure CompletedRowInput where
  row : CompletedTradeRow
  entry_d : Date
  close_d : Date
deriving DecidableEq

/-- `models.StrategyData`. -/
structure StrategyData where
  name : String
  trades : List TradeData
  total_pnl : ℚ
  win_rate : ℚ
  active_count : ℕ
  completed_trades : List CompletedTradeData
  performance_metrics : PerformanceMetrics
  risk_metrics : RiskMetrics
deriving DecidableEq

/-- `ReportDataCollector._process_strategy`. -/
def process_strategy (sq : ℚ → ℚ) (account_size : ℚ)
    (getPrice : String → Option TrackRow) (now : ℚ) (strategy_type : String)
    (trades : List ActiveTradeRow) (completed : List CompletedRowInput) :
    StrategyData :=
  let processed_trades := trades.filterMap (process_trade getPrice now)
  let processed_completed :=
    completed.map (fun c => process_completed_trade c.row c.entry_d c.close_d)
  let risk := calculate_risk_metrics account_size processed_trades processed_completed
  let perf := calculate_performance_metrics sq processed_trades processed_completed
  { name := strategy_type, trades := processed_trades,
    completed_trades := processed_completed,
    total_pnl := (processed_trades.map (·.pnl)).sum +
      (processed_completed.map (·.actual_profit_loss)).sum,
    win_rate := perf.win_rate, active_count := processed_trades.length,
    performance_metrics := perf, risk_metrics := risk }

/-- `ReportDataCollector._process_trades_by_strategy`: group both lists by
`trade_type` (rows with an empty `trade_type` are skipped) and process each
strategy, keeping it only when it still has trades. -/
def process_trades_by_strategy (sq : ℚ → ℚ) (account_size : ℚ)
    (getPrice : String → Option TrackRow) (now : ℚ)
    (active_rows : List ActiveTradeRow) (completed_rows : List CompletedRowInput) :
    List (String × StrategyData) :=
  let keys := dedup_first
    (((active_rows.filter (fun r => decide (¬ r.trade_type = ""))).map (·.trade_type)) ++
     ((completed_rows.filter (fun c => decide (¬ c.row.trade_type = ""))).map (·.row.trade_type)))
  (keys.map (fun k =>
    (k, process_strategy sq account_size getPrice now k
          (active_rows.filter (fun r => decide (r.trade_type = k)))
          (completed_rows.filter (fun c => decide (c.row.trade_type = k)))))).filter
    (fun p => decide (¬ (p.2.trades = [] ∧ p.2.completed_trades = [])))

/-- `models.CompletedTrade` (template-facing record). -/
structure CompletedTradeView where
  symbol : String
  entry_date : Date
  close_date : Date
  entry_credit : ℚ
  exit_debit : ℚ
  pnl : ℚ
  pnl_pct : ℚ
  exit_type : String
deriving DecidableEq

/-- `ReportDataCollector._convert_to_completed_trade`. -/
def convert_to_completed_trade (t : CompletedTradeData) : CompletedTradeView :=
  { symbol := t.symbol, entry_date := t.entry_date, close_date := t.close_date,
    entry_credit := t.entry_credit, exit_debit := t.exit_debit,
    pnl := t.actual_profit_loss, pnl_pct := t.profit_loss_percent,
    exit_type := t.exit_type }

/-- One `strategy_breakdown` entry. -/
structure BreakdownEntry where
  count : ℕ
  pnl : ℚ
  win_rate : ℚ
deriving DecidableEq

/-- `ReportDataCollector._calculate_strategy_breakdown`. -/
def calculate_strategy_breakdown (completed : List CompletedTradeData) :
    List (String × BreakdownEntry) :=
  let keys := dedup_first (completed.map (·.strategy_type))
  keys.map (fun k =>
    let ts := completed.filter (fun t => decide (t.strategy_type = k))
    let wins := ts.filter (fun t => decide (0 < t.actual_profit_loss))
    (k, { count := ts.length, pnl := (ts.map (·.actual_profit_loss)).sum,
          win_rate := if ts ≠ [] then (wins.length : ℚ) / (ts.length : ℚ) * 100 else 0 }))

/-- `ReportDataCollector._calculate_risk_concentration`. -/
def calculate_risk_concentration (active : List TradeData) : List (String × ℚ) :=
  let total_risk := (active.map (fun t => |t.current_value|)).sum
  if total_risk = 0 then []
  else
    (dedup_first (active.map (·.symbol))).map (fun s =>
      (s, ((trades_for active s).map (fun t => |t.current_value|)).sum / total_risk * 100))

/-- `ReportDataCollector._calculate_volatility_exposure` (legs built by
`_process_trade` carry no implied volatility, so `avg_iv` is `0` for them). -/
def calculate_volatility_exposure (active : List TradeData) : List (String × ℚ) :=
  let iv_of := fun (t : TradeData) =>
    ((t.legs.map (fun l => l.implied_volatility.getD 0)).sum) / (t.legs.length : ℚ)
  let low := ((active.filter (fun t => decide (iv_of t < 20))).map
    (fun t => |t.current_value|)).sum
  let med := ((active.filter (fun t => decide (20 ≤ iv_of t ∧ iv_of t < 40))).map
    (fun t => |t.current_value|)).sum
  let high := ((active.filter (fun t => decide (40 ≤ iv_of t))).map
    (fun t => |t.current_value|)).sum
  let total := low + med + high
  if total = 0 then [("low", low), ("medium", med), ("high", high)]
  else [("low", low / total * 100), ("medium", med / total * 100),
        ("high", high / total * 100)]

/-- `ReportDataCollector._get_market_data` / `_get_market_context`. -/
def get_market_context (getPrice : String → Option TrackRow) : MarketContext :=
  let vix_data := getPrice "^VIX"
  let spy_data := getPrice "SPY"
  let vix_price : Option ℚ := match vix_data with | some r => r.last | none => some 0
  let spy_price : Option ℚ := match spy_data with | some r => r.last | none => some 0
  let market_status := if vix_data.isSome || spy_data.isSome then "Open" else "Unknown"
  { vix_price := vix_price, vix_change := 0, spy_price := spy_price,
    spy_change := 0, market_status := market_status }

/-- `models.ReportData` (the two `datetime.now()` bookkeeping stamps are
not modelled). -/
structure ReportData where
  total_pnl : ℚ
  total_return : ℚ
  active_trades : ℕ
  completed_trades : ℕ
  unique_underlyings : ℕ
  win_rate : ℚ
  avg_pnl_per_trade : ℚ
  max_loss : ℚ
  strategy_breakdown : List (String × BreakdownEntry)
  completed_trades_list : List CompletedTradeView
  strategies : List (String × StrategyData)
  portfolio_risk_metrics : RiskMetrics
  portfolio_performance : PerformanceMetrics
  market_context : MarketContext
  correlation_matrix : Option CorrMat := none
  risk_concentration : Option (List (String × ℚ)) := none
  volatility_exposure : Option (List (String × ℚ)) := none
  sector_exposure : Option (List (String × ℚ)) := none
deriving DecidableEq

/-- `ReportDataCollector._create_empty_report`. -/
def create_empty_report (sq : ℚ → ℚ) (account_size : ℚ) : ReportData :=
  { total_pnl := 0, total_return := 0, active_trades := 0, completed_trades := 0,
    unique_underlyings := 0, win_rate := 0, avg_pnl_per_trade := 0, max_loss := 0,
    strategy_breakdown := [], completed_trades_list := [], strategies := [],
    portfolio_risk_metrics := calculate_risk_metrics account_size [] [],
    portfolio_performance := calculate_performance_metrics sq [] [],
    market_context := { vix_price := some 0, vix_change := 0, spy_price := some 0,
                        spy_change := 0, market_status := "Unknown" } }

/-- `ReportDataCollector.collect_data`: the two repository reads are passed
as `Except` results; any read failure short-circuits to the empty report,
otherwise the report is assembled from the embedded pieces. -/
def collect_data (sq : ℚ → ℚ) (account_size : ℚ)
    (getPrice : String → Option TrackRow) (now : ℚ)
    (activeRes : Except PyErr (List ActiveTradeRow))
    (historyRes : Except PyErr (List CompletedRowInput)) : ReportData :=
  match activeRes, historyRes with
  | .ok active_rows, .ok completed_rows =>
    let strategies := process_trades_by_strategy sq account_size getPrice now
      active_rows completed_rows
    let all_active := (strategies.map (fun p => p.2.trades)).flatten
    let all_completed := (strategies.map (fun p => p.2.completed_trades)).flatten
    let portfolio_risk := calculate_risk_metrics account_size all_active all_completed
    let portfolio_performance := calculate_performance_metrics sq all_active all_completed
    let matrix := calculate_correlation_matrix sq all_active
    let market_context := get_market_context getPrice
    let total_pnl := (strategies.map (fun p => p.2.total_pnl)).sum
    let unique_underlyings := (dedup_first (all_active.map (·.symbol))).length +
      (dedup_first (all_completed.map (·.symbol))).length
    { total_pnl := total_pnl,
      total_return := if account_size ≠ 0 then total_pnl / account_size * 100 else 0,
      active_trades := all_active.length, completed_trades := all_completed.length,
      unique_underlyings := unique_underlyings,
      win_rate := portfolio_performance.win_rate,
      avg_pnl_per_trade := portfolio_performance.avg_winner_size,
      max_loss := portfolio_risk.max_loss,
      strategy_breakdown := calculate_strategy_breakdown all_completed,
      completed_trades_list := all_completed.map convert_to_completed_trade,
      strategies := strategies,
      portfolio_risk_metrics := portfolio_risk,
      portfolio_performance := portfolio_performance,
      market_context := market_context,
      correlation_matrix := some matrix,
      risk_concentration := some (calculate_risk_concentration all_active),
      volatility_exposure := some (calculate_volatility_exposure all_active),
      sector_exposure := some [] }
  | _, _ => create_empty_report sq account_size

/-! ## Concrete stores and inputs used by the witnesses and
counterexamples below -/

/-- The empty store right after `initialize_database`. -/
def emptyDB : DBState :=
  { active := [], completed := [], history := [], tracking := [],
    next_trade_id := 1, next_tracking_id := 1, clock := 0 }

/-- A square-root stand-in for paths that never evaluate it. -/
def sqrtZero : ℚ → ℚ := fun _ => 0

/-- A square root valid at the one point the C7 witness needs
(`sqrt 4 = 2`). -/
def sqrtAtFour : ℚ → ℚ := fun x => if x = 4 then 2 else 0

/-- Scenario A's `BULL_PUT` row: net credit 1.25 per contract,
one contract, both put slots populated. -/
def scenA_trade : ActiveTradeRow :=
  { trade_id := 1, symbol := "XYZ", underlying_price := 100,
    trade_type := "BULL_PUT", entry_date := 0, expiration_date := ⟨2025, 6, 20⟩,
    short_put := some 100, long_put := some 95,
    short_put_symbol := some "SP1", long_put_symbol := some "LP1",
    short_call := none, long_call := none,
    short_call_symbol := none, long_call_symbol := none,
    net_credit := 5 / 4, num_contracts := 1, status := "OPEN",
    created_at := 0, updated_at := 0 }

/-- A stored tracking row carrying only a mark price. -/
def markOnlyRow (id : ℕ) (sym : String) (m : ℚ) : TrackRow :=
  { tracking_id := id, trade_id := 1, tracking_date := ⟨2025, 6, 1⟩,
    option_symbol := sym, bid := none, ask := none, last := none,
    mark := some m, volume := none, open_interest := none,
    is_market_closed := false, is_complete := false, last_update_time := 0 }

/-- Scenario A's stored prices: short put mark 0.30, long put mark 0.05. -/
def scenA_prices : String → Option TrackRow := fun s =>
  if s = "SP1" then some (markOnlyRow 1 "SP1" (3 / 10))
  else if s = "LP1" then some (markOnlyRow 2 "LP1" (1 / 20))
  else none

/-- `datetime.now()` for scenario A (the expiration midnight itself, so
`days_left = 0`). -/
def scenA_now : ℚ := ((Date.toDays ⟨2025, 6, 20⟩ : ℤ) : ℚ)

/-- The `TradeData` scenario A produces. -/
def scenA_result : TradeData :=
  { symbol := "XYZ", expiration := ⟨2025, 6, 20⟩, days_left := 0,
    entry_credit := 125, current_value := 25, pnl := -150, pnl_percent := -120,
    legs :=
      [{ type := "put", strike := 100, is_short := true, entry_price := none,
         current_price := 3 / 10, expiration := ⟨2025, 6, 20⟩, symbol := "SP1" },
       { type := "put", strike := 95, is_short := false, entry_price := none,
         current_price := 1 / 20, expiration := ⟨2025, 6, 20⟩, symbol := "LP1" }],
    strategy_type := "BULL_PUT" }

/-- Active row for the completion witness (integral credit). -/
def c2row : ActiveTradeRow :=
  { scenA_trade with trade_id := 7, net_credit := 2 }

/-- Store holding exactly the one active trade 7. -/
def c2st : DBState := { emptyDB with active := [c2row], next_trade_id := 8 }

/-- Exit dict for the completion witness. -/
def c2exit : ExitData :=
  { underlying_exit_price := 100, exit_debit := 0,
    actual_profit_loss := 200, exit_type := "EXPIRED" }

/-- A trade that expired (expiration 2024-01-10, status OPEN). -/
def c3row : ActiveTradeRow :=
  { scenA_trade with expiration_date := ⟨2024, 1, 10⟩, net_credit := 2 }

/-- Store holding exactly the expired trade. -/
def c3st : DBState := { emptyDB with active := [c3row], next_trade_id := 2 }

/-- `datetime.now()` one day after the expiration midnight. -/
def c3now : ℚ := ((Date.toDays ⟨2024, 1, 10⟩ : ℤ) : ℚ) + 1

/-- An `IRON_CONDOR` insert dict whose call slots are unpopulated: its
slot set does not match the strategy's required set. -/
def icMissingCalls : NewTradeData :=
  { symbol := "ABC", underlying_price := 50, trade_type := "IRON_CONDOR",
    expiration_date := ⟨2025, 3, 21⟩, net_credit := 1, num_contracts := 1,
    short_put := some 45, long_put := some 40,
    short_put_symbol := some "SP", long_put_symbol := some "LP",
    short_call := none, long_call := none,
    short_call_symbol := none, long_call_symbol := none }

/-- A `BULL_CALL` insert dict with exactly the required call pair. -/
def bullCallProper : NewTradeData :=
  { symbol := "ABC", underlying_price := 50, trade_type := "BULL_CALL",
    expiration_date := ⟨2025, 3, 21⟩, net_credit := 1, num_contracts := 1,
    short_put := none, long_put := none,
    short_put_symbol := none, long_put_symbol := none,
    short_call := some 55, long_call := some 60,
    short_call_symbol := some "SC", long_call_symbol := some "LC" }

/-- A quote with the market open. -/
def openQuote : QuoteData :=
  { bid := some 1, ask := some 2, last := some 1, mark := some 1,
    volume := some 10, open_interest := some 5, is_market_closed := false }

/-- A quote with the market closed. -/
def closedQuote : QuoteData := { openQuote with is_market_closed := true }

/-- A `BULL_PUT` whose two legs are the option symbols `A` and `B`. -/
def c5trade : ActiveTradeRow :=
  { scenA_trade with
    net_credit := 2
    short_put_symbol := some "A"
    long_put_symbol := some "B" }

/-- Quotes available for both legs, market open. -/
def c5quotes : String → Option QuoteData := fun s =>
  if s = "A" ∨ s = "B" then some openQuote else none

/-- The tracking day of the synchronization examples. -/
def syncToday : Date := ⟨2025, 1, 15⟩

/-- Zeroed sync statistics. -/
def zeroSyncStats : SyncStats :=
  { trades_processed := 0, options_checked := 0, records_created := 0,
    records_updated := 0, records_completed := 0, errors := 0 }

/-- An incomplete tracking row for trade 1 on the sync day (the C5
witness's pre-existing snapshot). -/
def c5existingRow : TrackRow :=
  { tracking_id := 1, trade_id := 1, tracking_date := syncToday,
    option_symbol := "A", bid := some 1, ask := some 2, last := some 1,
    mark := some 1, volume := some 10, open_interest := some 5,
    is_market_closed := false, is_complete := false, last_update_time := 0 }

/-- Store holding that single incomplete snapshot. -/
def c5preSt : DBState :=
  { emptyDB with tracking := [c5existingRow], next_tracking_id := 2, clock := 1 }

/-- A snapshot for trade 42 already marked complete for the sync day. -/
def c6completeRow : TrackRow :=
  { tracking_id := 1, trade_id := 42, tracking_date := syncToday,
    option_symbol := "A", bid := some 1, ask := some 2, last := some 1,
    mark := some 1, volume := some 10, open_interest := some 5,
    is_market_closed := true, is_complete := true, last_update_time := 0 }

/-- Store holding that completed snapshot. -/
def c6preSt : DBState :=
  { emptyDB with tracking := [c6completeRow], next_tracking_id := 2, clock := 1 }

/-- Quotes for leg `A` with the market closed. -/
def c6quotes : String → Option QuoteData := fun s =>
  if s = "A" then some closedQuote else none

/-- A bare `TradeData` with a given symbol and P&L percent (the only
fields the correlation matrix reads). -/
def mkTD (s : String) (pp : ℚ) : TradeData :=
  { symbol := s, expiration := ⟨2025, 1, 1⟩, days_left := 0, entry_credit := 0,
    current_value := 0, pnl := 0, pnl_percent := pp, legs := [],
    strategy_type := "BULL_PUT" }

/-- One trade on one symbol: its diagonal correlation is degenerate. -/
def c7single : List TradeData := [mkTD "A" 5]

/-- Two `A` trades (P&L% 0 and 2) and one `B` trade (P&L% 7). -/
def c7trades : List TradeData := [mkTD "A" 0, mkTD "A" 2, mkTD "B" 7]

/-- A store read that always misses (collector market-data path). -/
def noPrices : String → Option TrackRow := fun _ => none

/-- A `CLOSING` trade for the status-ordering counterexample. -/
def c9row : ActiveTradeRow :=
  { scenA_trade with trade_id := 3, net_credit := 2, status := "CLOSING" }

/-- Store holding the `CLOSING` trade. -/
def c9st : DBState := { emptyDB with active := [c9row], next_trade_id := 4 }

/-- A completed trade with the given realized P&L. -/
def mkCTD (pnl : ℚ) : CompletedTradeData :=
  { symbol := "Z", entry_date := ⟨2025, 1, 1⟩, expiration_date := ⟨2025, 1, 31⟩,
    close_date := ⟨2025, 1, 20⟩, entry_credit := 1, exit_debit := 0,
    actual_profit_loss := pnl, profit_loss_percent := 0,
    strategy_type := "BULL_PUT", exit_type := "EXPIRED", num_contracts := 1 }

/-- A break-even completed trade (realized P&L exactly 0). -/
def c10zero : CompletedTradeData := mkCTD 0

/-- Completed list containing the break-even trade and a winner. -/
def c10completed : List CompletedTradeData := [c10zero, mkCTD 50]

/-- One lifecycle pass over the store holding the expired trade. -/
def c3run : DBState × TMStats := process_active_trades c3now c3st

/-- Store in which the two-leg trade is active (sync examples). -/
def c5syncSt : DBState := { emptyDB with active := [c5trade] }

/-- One synchronization pass over the two-leg trade. -/
def c5run : DBState × SyncStats :=
  process_trade_options c5quotes syncToday c5trade c5syncSt zeroSyncStats

/-- Processing leg `A` of trade 42 on an empty store with the market
closed. -/
def c6run : DBState × SyncStats :=
  process_single_option c6quotes syncToday 42 "A" emptyDB zeroSyncStats

/-- The same leg processed again once the day's snapshot is already
complete. -/
def c6run2 : DBState × SyncStats :=
  process_single_option c6quotes syncToday 42 "A" c6preSt zeroSyncStats

/-- Forward-only relation between stores: every surviving active row kept
its status or moved to `EXPIRED`. -/
def ForwardOnly (st st' : DBState) : Prop :=
  ∀ r' ∈ st'.active, ∃ r ∈ st.active,
    r.trade_id = r'.trade_id ∧ (r'.status = r.status ∨ r'.status = "EXPIRED")

/-- A symmetric correlation matrix. -/
def SymmMat (m : CorrMat) : Prop := ∀ a b, mat_get m a b = mat_get m b a

/-- All entries within `[-1, 1]`. -/
def BoundMat (m : CorrMat) : Prop :=
  ∀ a b v, mat_get m a b = some v → -1 ≤ v ∧ v ≤ 1

/-- Every entry is a correlation of the two symbols' trade lists (in one
of the two argument orders). -/
def OriginMat (sq : ℚ → ℚ) (trades : List TradeData) (m : CorrMat) : Prop :=
  ∀ a b v, mat_get m a b = some v →
    v = correlation sq (trades_for trades a) (trades_for trades b) ∨
    v = correlation sq (trades_for trades b) (trades_for trades a)

/-! ## Theorems -/

/-- C10 — in the performance metrics a completed trade with realized P&L
exactly 0 is classified as losing, not winning: it is outside the winning
set (hence outside the win-rate numerator and gross profit), inside the
losing set (hence in the average-loser denominator and eligible as largest
loser), and the win rate counts only trades with P&L strictly above 0. -/
theorem zero_pnl_counts_as_loser (sq : ℚ → ℚ) (active : List TradeData)
    (completed : List CompletedTradeData) (t : CompletedTradeData)
    (ht : t ∈ completed) (h0 : t.actual_profit_loss = 0) :
    t ∉ winning_completed completed ∧
    t ∈ losing_trades completed ∧
    0 < (losing_trades completed).length ∧
    t.actual_profit_loss ∈ (losing_trades completed).map (·.actual_profit_loss) ∧
    (calculate_performance_metrics sq active completed).win_rate =
      (if 0 < completed.length + active.length then
        ((((winning_completed completed).length +
           (active.filter (fun a => decide (0 < a.pnl))).length : ℕ) : ℚ) /
         ((completed.length + active.length : ℕ) : ℚ) * 100)
       else 0) ∧
    gross_profit completed =
      ((winning_completed completed).map (·.actual_profit_loss)).sum ∧
    (calculate_performance_metrics sq active completed).avg_loser_size =
      (if losing_trades completed ≠ [] then
        gross_loss completed / ((losing_trades completed).length : ℚ) else 0) ∧
    (calculate_performance_metrics sq active completed).largest_loser =
      pyMin ((losing_trades completed).map (·.actual_profit_loss)) 0 := by
  have hw : t ∉ winning_completed completed := by
    simp only [winning_completed, List.mem_filter]
    rintro ⟨-, hlt⟩
    rw [h0] at hlt
    simp at hlt
  have hl : t ∈ losing_trades completed := by
    simp only [losing_trades, List.mem_filter]
    exact ⟨ht, by rw [h0]; decide⟩
  refine ⟨hw, hl, ?_, ?_, rfl, rfl, rfl, rfl⟩
  · exact List.length_pos.mpr (fun he => by rw [he] at hl; exact (List.not_mem_nil t) hl)
  · exact List.mem_map_of_mem _ hl

/-- Witness for `zero_pnl_counts_as_loser` at the concrete break-even
trade `c10zero`. -/
theorem zero_pnl_counts_as_loser_witness :
    (c10zero ∈ c10completed ∧ c10zero.actual_profit_loss = 0) ∧
    (c10zero ∉ winning_completed c10completed ∧
     c10zero ∈ losing_trades c10completed ∧
     0 < (losing_trades c10completed).length ∧
     c10zero.actual_profit_loss ∈
       (losing_trades c10completed).map (·.actual_profit_loss) ∧
     (calculate_performance_metrics sqrtZero [] c10completed).win_rate =
       (if 0 < c10completed.length + ([] : List TradeData).length then
         ((((winning_completed c10completed).length +
            (([] : List TradeData).filter (fun a => decide (0 < a.pnl))).length : ℕ) : ℚ) /
          ((c10completed.length + ([] : List TradeData).length : ℕ) : ℚ) * 100)
        else 0) ∧
     gross_profit c10completed =
       ((winning_completed c10completed).map (·.actual_profit_loss)).sum ∧
     (calculate_performance_metrics sqrtZero [] c10completed).avg_loser_size =
       (if losing_trades c10completed ≠ [] then
         gross_loss c10completed / ((losing_trades c10completed).length : ℚ) else 0) ∧
     (calculate_performance_metrics sqrtZero [] c10completed).largest_loser =
       pyMin ((losing_trades c10completed).map (·.actual_profit_loss)) 0) :=
  ⟨⟨by simp [c10completed], rfl⟩,
   zero_pnl_counts_as_loser sqrtZero [] c10completed c10zero (by simp [c10completed]) rfl⟩

/-- C4 (counterexample) — an `IRON_CONDOR` insert whose call slots are
unpopulated is accepted and stored (no leg-slot validation), while a
`BULL_CALL` insert with exactly the required call pair is rejected by the
schema's `trade_type` CHECK.  Both refute "storing succeeds exactly when
the populated slots equal the strategy's required set". -/
theorem save_new_trade_slot_mismatch_stored :
    (save_new_trade 0 emptyDB icMissingCalls).map
      (fun p => (p.1.active.map
        (fun r => (r.trade_type, r.short_call_symbol, r.long_call_symbol)), p.2)) =
      .ok ([("IRON_CONDOR", none, none)], 1) ∧
    save_new_trade 0 emptyDB bullCallProper =
      .error (.sqlErr "CHECK constraint failed: trade_type") := by
  constructor
  · simp [save_new_trade, icMissingCalls, emptyDB, Except.map]
  · simp [save_new_trade, bullCallProper, emptyDB]

/-- C4 (amended) — `save_new_trade` succeeds exactly when the schema CHECK
constraints hold (`trade_type ∈ {BULL_PUT, BEAR_CALL, IRON_CONDOR}`,
`net_credit > 0`, `num_contracts > 0`); the leg slots are stored exactly
as supplied and are never validated against the strategy. -/
theorem save_new_trade_success_iff (now : ℚ) (st : DBState) (d : NewTradeData) :
    ((∃ out, save_new_trade now st d = .ok out) ↔
      ((d.trade_type = "BULL_PUT" ∨ d.trade_type = "BEAR_CALL" ∨
        d.trade_type = "IRON_CONDOR") ∧ 0 < d.net_credit ∧ 0 < d.num_contracts)) ∧
    (∀ st' i, save_new_trade now st d = .ok (st', i) →
      ∃ r, st'.active = st.active ++ [r] ∧ r.trade_type = d.trade_type ∧
        r.short_put = d.short_put ∧ r.long_put = d.long_put ∧
        r.short_put_symbol = d.short_put_symbol ∧
        r.long_put_symbol = d.long_put_symbol ∧
        r.short_call = d.short_call ∧ r.long_call = d.long_call ∧
        r.short_call_symbol = d.short_call_symbol ∧
        r.long_call_symbol = d.long_call_symbol) := by
  unfold save_new_trade
  by_cases h1 : (d.trade_type = "BULL_PUT" ∨ d.trade_type = "BEAR_CALL" ∨
      d.trade_type = "IRON_CONDOR")
  · rw [if_neg (not_not_intro h1)]
    by_cases h2 : 0 < d.net_credit
    · rw [if_neg (not_not_intro h2)]
      by_cases h3 : 0 < d.num_contracts
      · rw [if_neg (not_not_intro h3)]
        constructor
        · exact ⟨fun _ => ⟨h1, h2, h3⟩, fun _ => ⟨_, rfl⟩⟩
        · intro st' i h
          injection h with hpair
          injection hpair with ha hb
          subst ha
          exact ⟨_, rfl, rfl, rfl, rfl, rfl, rfl, rfl, rfl, rfl, rfl⟩
      · rw [if_pos h3]
        constructor
        · constructor
          · rintro ⟨out, hout⟩; cases hout
          · rintro ⟨-, -, hc⟩; exact absurd hc h3
        · intro st' i h; cases h
    · rw [if_pos h2]
      constructor
      · constructor
        · rintro ⟨out, hout⟩; cases hout
        · rintro ⟨-, hc, -⟩; exact absurd hc h2
      · intro st' i h; cases h
  · rw [if_pos h1]
    constructor
    · constructor
      · rintro ⟨out, hout⟩; cases hout
      · rintro ⟨ht, -⟩; exact absurd ht h1
    · intro st' i h; cases h

/-- Witness for `save_new_trade_success_iff`: the mismatched iron-condor
dict satisfies the CHECKs, so it is stored with its call slots empty. -/
theorem save_new_trade_success_iff_witness :
    ((icMissingCalls.trade_type = "BULL_PUT" ∨ icMissingCalls.trade_type = "BEAR_CALL" ∨
      icMissingCalls.trade_type = "IRON_CONDOR") ∧ 0 < icMissingCalls.net_credit ∧
      0 < icMissingCalls.num_contracts) ∧
    (∃ out, save_new_trade 0 emptyDB icMissingCalls = .ok out) :=
  ⟨⟨Or.inr (Or.inr rfl), by norm_num [icMissingCalls], by norm_num [icMissingCalls]⟩,
   ((save_new_trade_success_iff 0 emptyDB icMissingCalls).1).mpr
     ⟨Or.inr (Or.inr rfl), by norm_num [icMissingCalls], by norm_num [icMissingCalls]⟩⟩

/-- C8 (counterexample) — when the repository read fails, the returned
empty report's profit factor is `float('inf')` (the zero-gross-loss
convention of `calculate_performance_metrics([], [])`), so not every
aggregate of the empty structure is zeroed. -/
theorem empty_report_profit_factor_infinite :
    (collect_data sqrtZero 50000 noPrices 0 (.error (.sqlErr "db down"))
      (.ok [])).portfolio_performance.profit_factor = ExtQ.inf ∧
    ExtQ.inf ≠ ExtQ.fin 0 := by
  constructor
  · simp [collect_data, create_empty_report, calculate_performance_metrics,
      gross_loss, gross_profit, losing_trades, winning_completed, periodic_pnl]
  · simp

/-- C8 (amended) — if either repository read fails, `collect_data` returns
the well-formed empty report instead of propagating the failure: totals,
counts and risk metrics zeroed, breakdowns and lists empty, optional
analytics absent; the performance block is all-zero except the profit
factor, which carries the `∞` convention. -/
theorem collect_data_failure_empty_report (sq : ℚ → ℚ) (acct : ℚ)
    (getPrice : String → Option TrackRow) (now : ℚ)
    (aRes : Except PyErr (List ActiveTradeRow))
    (hRes : Except PyErr (List CompletedRowInput))
    (hfail : (∃ e, aRes = .error e) ∨ (∃ e, hRes = .error e)) :
    collect_data sq acct getPrice now aRes hRes = create_empty_report sq acct ∧
    (create_empty_report sq acct).total_pnl = 0 ∧
    (create_empty_report sq acct).total_return = 0 ∧
    (create_empty_report sq acct).active_trades = 0 ∧
    (create_empty_report sq acct).completed_trades = 0 ∧
    (create_empty_report sq acct).unique_underlyings = 0 ∧
    (create_empty_report sq acct).win_rate = 0 ∧
    (create_empty_report sq acct).avg_pnl_per_trade = 0 ∧
    (create_empty_report sq acct).max_loss = 0 ∧
    (create_empty_report sq acct).strategy_breakdown = [] ∧
    (create_empty_report sq acct).completed_trades_list = [] ∧
    (create_empty_report sq acct).strategies = [] ∧
    (create_empty_report sq acct).correlation_matrix = none ∧
    (create_empty_report sq acct).risk_concentration = none ∧
    (create_empty_report sq acct).volatility_exposure = none ∧
    (create_empty_report sq acct).sector_exposure = none ∧
    (create_empty_report sq acct).portfolio_risk_metrics =
      { total_delta := 0, total_theta := 0, total_gamma := 0, total_vega := 0,
        position_size_pct := 0, max_loss := 0 } ∧
    (create_empty_report sq acct).portfolio_performance =
      { profit_factor := ExtQ.inf, sharpe := 0, avg_hold_time := 0, win_rate := 0,
        avg_winner_size := 0, avg_loser_size := 0, largest_winner := 0,
        largest_loser := 0, monthly_pnl := [], weekly_pnl := [] } := by
  have hmain : collect_data sq acct getPrice now aRes hRes = create_empty_report sq acct := by
    rcases hfail with ⟨e, he⟩ | ⟨e, he⟩
    · subst he
      cases hRes <;> rfl
    · subst he
      cases aRes <;> rfl
  have hrisk : calculate_risk_metrics acct ([] : List TradeData)
      ([] : List CompletedTradeData) =
      { total_delta := 0, total_theta := 0, total_gamma := 0, total_vega := 0,
        position_size_pct := 0, max_loss := 0 } := by
    unfold calculate_risk_metrics listMin optMin
    by_cases hacct : 0 < acct
    · simp [hacct]
    · simp [hacct]
  have hperf : calculate_performance_metrics sq ([] : List TradeData)
      ([] : List CompletedTradeData) =
      { profit_factor := ExtQ.inf, sharpe := 0, avg_hold_time := 0, win_rate := 0,
        avg_winner_size := 0, avg_loser_size := 0, largest_winner := 0,
        largest_loser := 0, monthly_pnl := [], weekly_pnl := [] } := by
    simp [calculate_performance_metrics, gross_loss, gross_profit,
      losing_trades, winning_completed, periodic_pnl, pyMin, pyMax]
  refine ⟨hmain, rfl, rfl, rfl, rfl, rfl, rfl, rfl, rfl, rfl, rfl, rfl, rfl, rfl,
    rfl, rfl, ?_, ?_⟩
  · show calculate_risk_metrics acct [] [] = _
    exact hrisk
  · show calculate_performance_metrics sq [] [] = _
    exact hperf

/-- Witness for `collect_data_failure_empty_report` at a concrete failing
read. -/
theorem collect_data_failure_empty_report_witness :
    ((∃ e, (.error e : Except PyErr (List ActiveTradeRow)) = .error (.sqlErr "db down")) ∨
     (∃ e, (.ok [] : Except PyErr (List CompletedRowInput)) = .error e)) ∧
    collect_data sqrtZero 50000 noPrices 0
      (.error (.sqlErr "db down")) (.ok []) = create_empty_report sqrtZero 50000 :=
  ⟨Or.inl ⟨.sqlErr "db down", rfl⟩,
   (collect_data_failure_empty_report sqrtZero 50000 noPrices 0
     (.error (.sqlErr "db down")) (.ok [])
     (Or.inl ⟨.sqlErr "db down", rfl⟩)).1⟩

/-- C9 (counterexample) — a trade in `CLOSING` is moved back to `OPEN` by a
single status-update operation: the repository enforces no transition
ordering (the status-history trigger duly logs the backward move). -/
theorem status_backward_move_allowed :
    c9st.active.map (fun r => (r.trade_id, r.status)) = [(3, "CLOSING")] ∧
    (update_trade_status 1 c9st 3 "OPEN").map
      (fun s => s.active.map (fun r => (r.trade_id, r.status))) = .ok [(3, "OPEN")] ∧
    (update_trade_status 1 c9st 3 "OPEN").map
      (fun s => s.history.map (fun h => (h.trade_id, h.old_status, h.new_status))) =
      .ok [(3, "CLOSING", "OPEN")] := by
  refine ⟨rfl, ?_, ?_⟩ <;>
    simp [update_trade_status, applyStatusUpdate, c9st, c9row, scenA_trade,
      emptyDB, Except.map]

/-- `ForwardOnly` is reflexive. -/
theorem forwardOnly_refl (st : DBState) : ForwardOnly st st :=
  fun r' hr' => ⟨r', hr', rfl, Or.inl rfl⟩

/-- `ForwardOnly` composes. -/
theorem forwardOnly_trans {s1 s2 s3 : DBState}
    (h12 : ForwardOnly s1 s2) (h23 : ForwardOnly s2 s3) : ForwardOnly s1 s3 := by
  intro r3 hr3
  obtain ⟨r2, hr2, hid23, hs23⟩ := h23 r3 hr3
  obtain ⟨r1, hr1, hid12, hs12⟩ := h12 r2 hr2
  refine ⟨r1, hr1, hid12.trans hid23, ?_⟩
  rcases hs23 with h | h
  · rcases hs12 with h' | h'
    · exact Or.inl (h.trans h')
    · exact Or.inr (h.trans h')
  · exact Or.inr h

/-- Setting a status to `EXPIRED` is a forward-only step. -/
theorem forwardOnly_applyStatusUpdate (now : ℚ) (st : DBState) (tid : ℕ) :
    ForwardOnly st (applyStatusUpdate now st tid "EXPIRED") := by
  intro r' hr'
  simp only [applyStatusUpdate, List.mem_map] at hr'
  obtain ⟨r, hr, hEq⟩ := hr'
  by_cases hid : r.trade_id = tid
  · rw [if_pos hid] at hEq
    exact ⟨r, hr, by rw [← hEq], Or.inr (by rw [← hEq])⟩
  · rw [if_neg hid] at hEq
    exact ⟨r, hr, by rw [hEq], Or.inl (by rw [hEq])⟩

/-- `complete_trade` only removes active rows, a forward-only step. -/
theorem forwardOnly_complete_trade (now : ℚ) (st : DBState) (tid : ℕ)
    (ex : ExitData) : ForwardOnly st (complete_trade now st tid ex).1 := by
  unfold complete_trade
  cases hfind : st.active.find? (fun r => decide (r.trade_id = tid)) with
  | none => exact forwardOnly_refl st
  | some tr =>
    simp only
    split_ifs <;>
      first
        | exact forwardOnly_refl st
        | · intro r' hr'
            obtain ⟨hmem, -⟩ := List.mem_filter.mp hr'
            exact ⟨r', hmem, rfl, Or.inl rfl⟩

/-- One iteration of the lifecycle loop is forward-only. -/
theorem forwardOnly_process_one (now : ℚ) (st : DBState) (stats : TMStats)
    (tr : ActiveTradeRow) : ForwardOnly st (process_one_trade now st stats tr).1 := by
  unfold process_one_trade
  by_cases hexp : (⌊(tr.expiration_date.toDays : ℚ) - now⌋ : ℤ) < 0
  · rw [if_pos hexp]
    have hup : update_trade_status now st tr.trade_id "EXPIRED" =
        .ok (applyStatusUpdate now st tr.trade_id "EXPIRED") := by
      unfold update_trade_status
      rw [if_neg (not_not_intro (Or.inr (Or.inr rfl)))]
    rw [hup]
    cases hpnl : expired_actual_pnl tr with
    | error e => exact forwardOnly_applyStatusUpdate now st tr.trade_id
    | ok pnl =>
      simp only
      have hstep := forwardOnly_applyStatusUpdate now st tr.trade_id
      have hcomp := forwardOnly_complete_trade now
        (applyStatusUpdate now st tr.trade_id "EXPIRED") tr.trade_id
        { underlying_exit_price := tr.underlying_price, exit_debit := 0,
          actual_profit_loss := pnl, exit_type := "EXPIRED" }
      cases hct : complete_trade now (applyStatusUpdate now st tr.trade_id "EXPIRED")
          tr.trade_id
          { underlying_exit_price := tr.underlying_price, exit_debit := 0,
            actual_profit_loss := pnl, exit_type := "EXPIRED" } with
      | mk st2 err =>
        cases err with
        | none =>
          simp only
          refine forwardOnly_trans hstep ?_
          have := hcomp
          rw [hct] at this
          exact this
        | some e =>
          simp only
          refine forwardOnly_trans hstep ?_
          have := hcomp
          rw [hct] at this
          exact this
  · rw [if_neg hexp]
    exact forwardOnly_refl st

/-- The whole lifecycle fold is forward-only. -/
theorem forwardOnly_fold (now : ℚ) :
    ∀ (l : List ActiveTradeRow) (st : DBState) (stats : TMStats),
      ForwardOnly st (l.foldl (fun acc tr => process_one_trade now acc.1 acc.2 tr)
        (st, stats)).1 := by
  intro l
  induction l with
  | nil => intro st stats; exact forwardOnly_refl st
  | cons tr rest ih =>
    intro st stats
    rw [List.foldl_cons]
    cases hstep : process_one_trade now st stats tr with
    | mk st1 stats1 =>
      refine forwardOnly_trans ?_ (ih st1 stats1)
      have := forwardOnly_process_one now st stats tr
      rw [hstep] at this
      exact this

/-- C9 (amended) — the status-update operation validates only membership in
`{OPEN, CLOSING, EXPIRED}`; any valid status is written regardless of the
current one, so backward transitions are possible at the repository level;
the lifecycle pass itself only ever moves a status to `EXPIRED`. -/
theorem update_trade_status_no_ordering (now : ℚ) (st : DBState) (tid : ℕ)
    (s : String) :
    (¬ (s = "OPEN" ∨ s = "CLOSING" ∨ s = "EXPIRED") →
      update_trade_status now st tid s = .error (.valueError "Invalid status")) ∧
    ((s = "OPEN" ∨ s = "CLOSING" ∨ s = "EXPIRED") →
      (update_trade_status now st tid s).map
        (fun st' => st'.active.map (fun r => (r.trade_id, r.status))) =
      .ok (st.active.map
        (fun r => (r.trade_id, if r.trade_id = tid then s else r.status)))) ∧
    (∀ r' ∈ (process_active_trades now st).1.active,
      ∃ r ∈ st.active, r.trade_id = r'.trade_id ∧
        (r'.status = r.status ∨ r'.status = "EXPIRED")) := by
  refine ⟨?_, ?_, ?_⟩
  · intro hs
    unfold update_trade_status
    rw [if_pos hs]
  · intro hs
    unfold update_trade_status
    rw [if_neg (not_not_intro hs)]
    simp only [Except.map, applyStatusUpdate, List.map_map]
    congr 1
    apply List.map_congr_left
    intro r _
    by_cases hid : r.trade_id = tid
    · simp [hid]
    · simp [hid]
  · intro r' hr'
    unfold process_active_trades at hr'
    exact forwardOnly_fold now (get_active_trades st) st _ r' hr'

/-- Witness for `update_trade_status_no_ordering` at the concrete
`CLOSING` trade and the backward target `OPEN`. -/
theorem update_trade_status_no_ordering_witness :
    (("OPEN" = "OPEN" ∨ ("OPEN" : String) = "CLOSING" ∨ ("OPEN" : String) = "EXPIRED")) ∧
    (update_trade_status 1 c9st 3 "OPEN").map
      (fun st' => st'.active.map (fun r => (r.trade_id, r.status))) =
    .ok (c9st.active.map
      (fun r => (r.trade_id, if r.trade_id = 3 then "OPEN" else r.status))) :=
  ⟨Or.inl rfl,
   (update_trade_status_no_ordering 1 c9st 3 "OPEN").2.1 (Or.inl rfl)⟩

/-- Counting rows after the insert-then-delete pair of the migration. -/
theorem counts_after_migration (st : DBState) (tid : ℕ) (row : CompletedTradeRow)
    (hrow : row.trade_id = tid) (h2 : countCompleted st tid = 0) :
    countCompleted
      { st with
        completed := st.completed ++ [row]
        active := st.active.filter (fun r => decide (¬ r.trade_id = tid)) } tid = 1 ∧
    countActive
      { st with
        completed := st.completed ++ [row]
        active := st.active.filter (fun r => decide (¬ r.trade_id = tid)) } tid = 0 := by
  constructor
  · simp only [countCompleted] at h2 ⊢
    rw [List.filter_append, List.length_append, h2]
    simp [List.filter, hrow]
  · simp only [countActive]
    rw [List.length_eq_zero, List.filter_eq_nil_iff]
    intro a ha
    obtain ⟨-, hq⟩ := List.mem_filter.mp ha
    simp only [decide_eq_true_eq] at hq ⊢
    exact hq

/-- C2 — completion is atomic.  For a trade present once in the active
store and absent from history, `complete_trade` either succeeds — after
which the trade id appears exactly once in `completed_trades` and zero
times in `active_trades` — or fails, leaving the store untouched
(single-transaction rollback); in both cases the id ends up in exactly
one of the two stores. -/
theorem complete_trade_atomic (now : ℚ) (st : DBState) (tid : ℕ) (ex : ExitData)
    (h1 : countActive st tid = 1) (h2 : countCompleted st tid = 0) :
    ((complete_trade now st tid ex).2 = none →
      countCompleted (complete_trade now st tid ex).1 tid = 1 ∧
      countActive (complete_trade now st tid ex).1 tid = 0) ∧
    (∀ e, (complete_trade now st tid ex).2 = some e →
      (complete_trade now st tid ex).1 = st) ∧
    countActive (complete_trade now st tid ex).1 tid +
      countCompleted (complete_trade now st tid ex).1 tid = 1 := by
  unfold complete_trade
  cases hfind : st.active.find? (fun r => decide (r.trade_id = tid)) with
  | none =>
    exact ⟨fun h => by simp at h, fun e _ => rfl, by rw [h1, h2]⟩
  | some tr =>
    have htid : tr.trade_id = tid := by
      have h := List.find?_some hfind
      exact of_decide_eq_true h
    simp only
    split_ifs
    all_goals
      first
        | exact ⟨fun h => by simp at h, fun e _ => rfl, by rw [h1, h2]⟩
        | · refine ⟨fun _ => counts_after_migration st tid _ htid h2,
              fun e he => by simp at he, ?_⟩
            rw [(counts_after_migration st tid _ htid h2).2,
              (counts_after_migration st tid _ htid h2).1]

/-- Witness for `complete_trade_atomic`: completing the concrete trade 7
succeeds and migrates it. -/
theorem complete_trade_atomic_witness :
    (countActive c2st 7 = 1 ∧ countCompleted c2st 7 = 0 ∧
     (complete_trade 1 c2st 7 c2exit).2 = none) ∧
    (countCompleted (complete_trade 1 c2st 7 c2exit).1 7 = 1 ∧
     countActive (complete_trade 1 c2st 7 c2exit).1 7 = 0) := by
  have hA : countActive c2st 7 = 1 := by decide
  have hB : countCompleted c2st 7 = 0 := by decide
  have hnone : (complete_trade 1 c2st 7 c2exit).2 = none := by decide
  exact ⟨⟨hA, hB, hnone⟩, (complete_trade_atomic 1 c2st 7 c2exit hA hB).1 hnone⟩

/-- The running `legsValue` accumulated by the collector's leg loop equals
the spec's signed sum over populated legs. -/
theorem leg_fold_value (g : String → Option TrackRow) (tr : ActiveTradeRow)
    (e : Date) :
    ∀ (defs : List LegDef) (acc : List OptionLeg × ℚ × Bool),
      (defs.foldl (leg_step g tr e) acc).2.1 = acc.2.1 + legs_value_spec g tr defs := by
  intro defs
  induction defs with
  | nil => intro acc; simp [legs_value_spec]
  | cons d ds ih =>
    intro acc
    rw [List.foldl_cons, ih]
    cases hp : populated_leg tr d with
    | none =>
      simp only [legs_value_spec, List.filterMap_cons, hp, Option.map_none']
      simp only [legs_value_spec] at ih ⊢
      unfold leg_step
      rw [hp]
    | some p =>
      obtain ⟨sym, strike⟩ := p
      simp only [legs_value_spec, List.filterMap_cons, hp, Option.map_some',
        List.map_cons, List.sum_cons]
      unfold leg_step
      rw [hp]
      simp only [legs_value_spec]
      ring

/-- C1 — for every trade the collector's mark-to-market valuation accepts,
the reported P&L satisfies `totalPnl = (-netCredit + legsValue) ×
contracts × 100` with `legsValue` the signed sum over populated legs of
the resolved leg price, and `pnlPercent = totalPnl / (|netCredit| ×
contracts × 100) × 100` (0 when the denominator is 0). -/
theorem process_trade_mark_to_market (getPrice : String → Option TrackRow)
    (now : ℚ) (tr : ActiveTradeRow) (td : TradeData) (defs : List LegDef)
    (hd : leg_definitions tr.trade_type = some defs)
    (h : process_trade getPrice now tr = some td) :
    td.pnl = (-tr.net_credit + legs_value_spec getPrice tr defs) *
      (tr.num_contracts : ℚ) * 100 ∧
    td.pnl_percent =
      (if |tr.net_credit| * (tr.num_contracts : ℚ) * 100 ≠ 0 then
        td.pnl / (|tr.net_credit| * (tr.num_contracts : ℚ) * 100) * 100 else 0) := by
  unfold process_trade at h
  by_cases hguard : (tr.trade_type = "" ∨ tr.symbol = "")
  · rw [if_pos hguard] at h; cases h
  · rw [if_neg hguard, hd] at h
    simp only at h
    by_cases hlegs :
        (defs.foldl (leg_step getPrice tr tr.expiration_date) ([], 0, false)).1 = []
    · rw [if_pos hlegs] at h; cases h
    · rw [if_neg hlegs] at h
      injection h with h'
      subst h'
      have hv := leg_fold_value getPrice tr tr.expiration_date defs ([], 0, false)
      norm_num at hv
      constructor
      · simp [hv]
      · rfl

/-- Witness for `process_trade_mark_to_market`: scenario A (BULL_PUT,
net credit 1.25, one contract, marks 0.30 and 0.05) yields total P&L
−150.00 and P&L percent −120.0. -/
theorem process_trade_mark_to_market_witness :
    (leg_definitions scenA_trade.trade_type = some put_pair_defs ∧
     process_trade scenA_prices scenA_now scenA_trade = some scenA_result ∧
     scenA_result.pnl = -150 ∧ scenA_result.pnl_percent = -120) ∧
    (scenA_result.pnl = (-scenA_trade.net_credit +
        legs_value_spec scenA_prices scenA_trade put_pair_defs) *
        (scenA_trade.num_contracts : ℚ) * 100 ∧
     scenA_result.pnl_percent =
       (if |scenA_trade.net_credit| * (scenA_trade.num_contracts : ℚ) * 100 ≠ 0 then
         scenA_result.pnl /
           (|scenA_trade.net_credit| * (scenA_trade.num_contracts : ℚ) * 100) * 100
        else 0)) := by
  have hd : leg_definitions scenA_trade.trade_type = some put_pair_defs := by
    simp [leg_definitions, scenA_trade]
  have hp : process_trade scenA_prices scenA_now scenA_trade = some scenA_result := by
    simp [process_trade, scenA_trade, scenA_now, leg_definitions, put_pair_defs,
      leg_step, populated_leg, resolve_leg_price, scenA_prices, markOnlyRow,
      scenA_result]
    all_goals norm_num [abs_of_pos]
  exact ⟨⟨hd, hp, rfl, rfl⟩,
    process_trade_mark_to_market scenA_prices scenA_now scenA_trade scenA_result
      put_pair_defs hd hp⟩

/-- C3 — the lifecycle pass over a trade whose expiration is strictly in
the past sets its status to `EXPIRED` but then hits `trade['spread_type']`,
a key absent from the `active_trades` schema: the resulting `KeyError` is
caught by the per-trade handler, the error counter increments, and no
`CompletedTrade` row is ever written — the trade stays in the active store
in status `EXPIRED` instead of being migrated. -/
theorem lifecycle_expired_pass_keyerror :
    c3run.1.completed = [] ∧
    c3run.1.active.map (fun r => (r.trade_id, r.status)) = [(1, "EXPIRED")] ∧
    c3run.2.errors = 1 ∧
    c3run.2.expired_trades = 0 ∧
    dict_get (active_row_dict c3row) "spread_type" = none := by
  have hlt : (⌊(((⟨2024, 1, 10⟩ : Date).toDays : ℤ) : ℚ) - c3now⌋ : ℤ) < 0 := by
    simp only [c3now]
    rw [show (((⟨2024, 1, 10⟩ : Date).toDays : ℤ) : ℚ) -
      ((((⟨2024, 1, 10⟩ : Date).toDays : ℤ) : ℚ) + 1) = -1 by ring]
    norm_num
  refine ⟨?_, ?_, ?_, ?_, by decide⟩ <;>
    simp [c3run, process_active_trades, get_active_trades, insertByExp,
      process_one_trade, hlt, update_trade_status, applyStatusUpdate,
      expired_actual_pnl, active_row_dict, dict_get, complete_trade,
      c3st, c3row, scenA_trade, emptyDB]

/-- C5 (counterexample) — one sequential synchronization pass over a trade
with two legs `A` and `B` ends with a single tracking row whose
`option_symbol` is `B`: the lookup is keyed by trade (not by option
symbol), so leg `B` updates — and overwrites — the row leg `A` created,
instead of the two legs occupying two distinct rows. -/
theorem sync_two_legs_share_one_row :
    c5run.1.tracking.map (·.option_symbol) = ["B"] ∧
    c5run.1.tracking.filter (fun r => decide (r.option_symbol = "A")) = [] ∧
    c5run.2.records_created = 1 ∧
    c5run.2.records_updated = 1 := by
  refine ⟨?_, ?_, ?_, ?_⟩ <;>
    simp [c5run, process_trade_options, get_trade_option_symbols,
      process_single_option, get_active_price_tracking,
      create_option_price_tracking, update_option_price,
      mark_tracking_complete, c5quotes, openQuote, c5trade, scenA_trade,
      c5syncSt, emptyDB, syncToday, zeroSyncStats]

/-- The row `get_active_price_tracking` returns is one of the filtered
candidates: it belongs to the store, carries the queried trade id and
date, and is not complete. -/
theorem get_active_price_tracking_spec (today : Date) (st : DBState) (tid : ℕ)
    (r : TrackRow) (h : get_active_price_tracking today st tid = some r) :
    r ∈ st.tracking ∧ r.trade_id = tid ∧ r.tracking_date = today ∧
      r.is_complete = false := by
  have hpick : ∀ (rest : List TrackRow) (c : TrackRow),
      (rest.foldl (fun best x =>
        if best.last_update_time < x.last_update_time then x else best) c) ∈
        c :: rest := by
    intro rest
    induction rest with
    | nil => intro c; exact List.mem_singleton.mpr rfl
    | cons x xs ih =>
      intro c
      rw [List.foldl_cons]
      have hm := ih (if c.last_update_time < x.last_update_time then x else c)
      rcases List.mem_cons.mp hm with he | hxs
      · rw [he]
        by_cases hc : c.last_update_time < x.last_update_time
        · rw [if_pos hc]
          exact List.mem_cons_of_mem _ (List.mem_cons_self _ _)
        · rw [if_neg hc]
          exact List.mem_cons_self _ _
      · exact List.mem_cons_of_mem _ (List.mem_cons_of_mem _ hxs)
  unfold get_active_price_tracking at h
  cases hc : st.tracking.filter (fun x =>
      decide (x.trade_id = tid ∧ x.tracking_date = today ∧ x.is_complete = false)) with
  | nil => rw [hc] at h; cases h
  | cons c rest =>
    rw [hc] at h
    injection h with h'
    have hr : r ∈ c :: rest := h' ▸ hpick rest c
    have hr' : r ∈ st.tracking.filter (fun x =>
        decide (x.trade_id = tid ∧ x.tracking_date = today ∧ x.is_complete = false)) := by
      rw [hc]; exact hr
    obtain ⟨hmem, hp⟩ := List.mem_filter.mp hr'
    simp only [decide_eq_true_eq] at hp
    exact ⟨hmem, hp.1, hp.2.1, hp.2.2⟩

/-- C5 (amended) — the snapshot upsert is keyed by `(trade_id, today,
incomplete)` rather than by `(trade_id, today, option_symbol)`: when an
incomplete row for the trade exists and the provider returns data, the
pass updates that single row in place (row count unchanged, the row now
carrying the processed leg's symbol and quote, completed exactly when the
provider reports the market closed); when no such row exists, exactly one
new incomplete row is appended; a provider miss leaves the store
untouched.  Legs of the same trade therefore share one row per day. -/
theorem process_single_option_upsert_by_trade (gq : String → Option QuoteData)
    (today : Date) (tid : ℕ) (sym : String) (st : DBState) (stats : SyncStats) :
    (∀ r q, get_active_price_tracking today st tid = some r → gq sym = some q →
      (process_single_option gq today tid sym st stats).1.tracking.length =
        st.tracking.length ∧
      (∀ r' ∈ (process_single_option gq today tid sym st stats).1.tracking,
        r'.tracking_id ≠ r.tracking_id → r' ∈ st.tracking) ∧
      (∃ r' ∈ (process_single_option gq today tid sym st stats).1.tracking,
        r'.tracking_id = r.tracking_id ∧ r'.option_symbol = sym ∧
        r'.tracking_date = today ∧ r'.mark = q.mark ∧
        r'.is_complete = q.is_market_closed)) ∧
    (∀ q, get_active_price_tracking today st tid = none → gq sym = some q →
      ∃ nr, (process_single_option gq today tid sym st stats).1.tracking =
        st.tracking ++ [nr] ∧ nr.trade_id = tid ∧ nr.option_symbol = sym ∧
        nr.tracking_date = today ∧ nr.is_complete = false) ∧
    (gq sym = none → (process_single_option gq today tid sym st stats).1 = st) := by
  refine ⟨?_, ?_, ?_⟩
  · intro r q hex hq
    obtain ⟨hmem, -, -, hcomp⟩ := get_active_price_tracking_spec today st tid r hex
    unfold process_single_option
    rw [hex]
    simp only [hcomp, Bool.false_eq_true, if_false]
    rw [hq]
    by_cases hmc : q.is_market_closed = true
    · simp only [hmc, if_true, mark_tracking_complete, update_option_price,
        List.map_map]
      refine ⟨by simp, ?_, ?_⟩
      · intro r' hr' hid
        obtain ⟨r0, hr0m, hr0⟩ := List.mem_map.mp hr'
        by_cases h0 : r0.tracking_id = r.tracking_id
        · exact absurd
            (show r'.tracking_id = r.tracking_id by
              rw [← hr0]; simp [Function.comp, h0]) hid
        · rw [← hr0]
          simpa [Function.comp, h0] using hr0m
      · refine ⟨_, List.mem_map_of_mem _ hmem, ?_, ?_, ?_, ?_, ?_⟩ <;>
          simp [Function.comp, hmc]
    · have hmcf : q.is_market_closed = false := by
        cases hqb : q.is_market_closed
        · rfl
        · exact absurd hqb hmc
      simp only [hmcf, Bool.false_eq_true, if_false, update_option_price]
      refine ⟨by simp, ?_, ?_⟩
      · intro r' hr' hid
        obtain ⟨r0, hr0m, hr0⟩ := List.mem_map.mp hr'
        by_cases h0 : r0.tracking_id = r.tracking_id
        · exact absurd
            (show r'.tracking_id = r.tracking_id by rw [← hr0]; simp [h0]) hid
        · rw [← hr0]
          simpa [h0] using hr0m
      · refine ⟨_, List.mem_map_of_mem _ hmem, ?_, ?_, ?_, ?_, ?_⟩ <;>
          simp [hmcf, hcomp]
  · intro q hex hq
    unfold process_single_option
    rw [hex, hq]
    exact ⟨_, rfl, rfl, rfl, rfl, rfl⟩
  · intro hq
    unfold process_single_option
    cases hex : get_active_price_tracking today st tid with
    | none => rw [hq]
    | some r =>
      obtain ⟨-, -, -, hcomp⟩ := get_active_price_tracking_spec today st tid r hex
      simp only [hcomp, Bool.false_eq_true, if_false]
      rw [hq]

/-- Witness for `process_single_option_upsert_by_trade`: processing leg
`B` while leg `A`'s incomplete row exists updates that row in place. -/
theorem process_single_option_upsert_by_trade_witness :
    (get_active_price_tracking syncToday c5preSt 1 = some c5existingRow ∧
     c5quotes "B" = some openQuote) ∧
    ((process_single_option c5quotes syncToday 1 "B" c5preSt
        zeroSyncStats).1.tracking.length = c5preSt.tracking.length ∧
     (∀ r' ∈ (process_single_option c5quotes syncToday 1 "B" c5preSt
        zeroSyncStats).1.tracking,
       r'.tracking_id ≠ c5existingRow.tracking_id → r' ∈ c5preSt.tracking) ∧
     (∃ r' ∈ (process_single_option c5quotes syncToday 1 "B" c5preSt
        zeroSyncStats).1.tracking,
       r'.tracking_id = c5existingRow.tracking_id ∧ r'.option_symbol = "B" ∧
       r'.tracking_date = syncToday ∧ r'.mark = openQuote.mark ∧
       r'.is_complete = openQuote.is_market_closed)) :=
  ⟨⟨by decide, by decide⟩,
   (process_single_option_upsert_by_trade c5quotes syncToday 1 "B" c5preSt
     zeroSyncStats).1 c5existingRow openQuote (by decide) (by decide)⟩

/-- C6 — with the market reported closed: a snapshot row created in this
pass is left with `is_complete = false` (the completion branch runs only
for a pre-existing row) and the completed counter stays 0; moreover a row
already complete for today is never found by the lookup (it filters on
`NOT is_complete`), so instead of skipping, the pass calls the provider
again and creates a second row for the same trade and day. -/
theorem market_closed_snapshot_never_completed :
    c6run.1.tracking.map
      (fun r => (r.option_symbol, r.is_complete, r.is_market_closed)) =
      [("A", false, true)] ∧
    c6run.2.records_completed = 0 ∧
    c6run.2.records_created = 1 ∧
    get_active_price_tracking syncToday c6preSt 42 = none ∧
    c6run2.1.tracking.length = 2 ∧
    c6run2.2.options_checked = 1 := by
  refine ⟨by decide, by decide, by decide, by decide, by decide, by decide⟩

/-- Dict assignment/lookup interaction. -/
theorem dict_get_set {α : Type} (m : List (String × α)) (k : String) (v : α)
    (k' : String) :
    dict_get (dict_set m k v) k' = if k' = k then some v else dict_get m k' := by
  induction m with
  | nil =>
    simp only [dict_set, dict_get]
    by_cases h : k = k'
    · rw [if_pos h, if_pos h.symm]
    · rw [if_neg h, if_neg (fun hh => h hh.symm)]
  | cons p rest ih =>
    obtain ⟨k0, v0⟩ := p
    simp only [dict_set]
    by_cases h0 : k0 = k
    · rw [if_pos h0]
      subst h0
      simp only [dict_get]
      by_cases h : k0 = k'
      · rw [if_pos h, if_pos h, if_pos h.symm]
      · rw [if_neg h, if_neg h, if_neg (fun hh => h hh.symm)]
    · rw [if_neg h0]
      simp only [dict_get, ih]
      by_cases h : k0 = k'
      · have hkk : ¬ k' = k := fun he => h0 (h.trans he)
        rw [if_pos h, if_neg hkk, if_pos h]
      · rw [if_neg h, if_neg h]

/-- Nested assignment/lookup interaction for the matrix dict. -/
theorem mat_get_set (m : CorrMat) (k1 k2 : String) (v : ℚ) (a b : String) :
    mat_get (mat_set m k1 k2 v) a b =
      if a = k1 ∧ b = k2 then some v else mat_get m a b := by
  unfold mat_get mat_set
  rw [dict_get_set]
  by_cases ha : a = k1
  · subst ha
    rw [if_pos rfl]
    simp only [Option.some_bind]
    rw [dict_get_set]
    by_cases hb : b = k2
    · simp [hb]
    · rw [if_neg hb, if_neg (fun h => hb h.2)]
      cases hdg : dict_get m a with
      | none => simp [dict_get]
      | some inner => simp
  · rw [if_neg ha, if_neg (fun h => ha h.1)]

/-- The clipped correlation always lies in `[-1, 1]`. -/
theorem correlation_bounds (sq : ℚ → ℚ) (t1 t2 : List TradeData) :
    -1 ≤ correlation sq t1 t2 ∧ correlation sq t1 t2 ≤ 1 := by
  simp only [correlation]
  split_ifs with h1 h2
  · norm_num
  · norm_num
  · constructor
    · exact le_max_right _ _
    · exact max_le (min_le_right _ _) (by norm_num)

/-- `var_of` of a one-element series vanishes. -/
theorem var_of_single (y : ℚ) : var_of [y] = 0 := by
  simp [var_of, mean_of]

/-- A side with fewer than two observations forces correlation 0. -/
theorem correlation_degenerate (sq : ℚ → ℚ) (t1 t2 : List TradeData)
    (h : t1.length < 2 ∨ t2.length < 2) : correlation sq t1 t2 = 0 := by
  simp only [correlation]
  by_cases hg : returns_of t1 = [] ∨ returns_of t2 = []
  · rw [if_pos hg]
  · rw [if_neg hg]
    push_neg at hg
    have hvar : var_of (returns_of t1) = 0 ∨ var_of (returns_of t2) = 0 := by
      rcases h with h | h
      · left
        interval_cases hl : t1.length
        · exact absurd (List.length_eq_zero.mp hl) (by
            intro hn
            exact hg.1 (by simp [returns_of, hn]))
        · obtain ⟨x, hx⟩ := List.length_eq_one.mp hl
          rw [hx]
          simpa [returns_of] using var_of_single x.pnl_percent
      · right
        interval_cases hl : t2.length
        · exact absurd (List.length_eq_zero.mp hl) (by
            intro hn
            exact hg.2 (by simp [returns_of, hn]))
        · obtain ⟨x, hx⟩ := List.length_eq_one.mp hl
          rw [hx]
          simpa [returns_of] using var_of_single x.pnl_percent
    rw [if_pos hvar]

/-- Summing the product form over `zip l l` is the variance sum. -/
theorem zip_self_var_aux (l : List ℚ) (m : ℚ) :
    ((l.zip l).map (fun p => (p.1 - m) * (p.2 - m))).sum =
      (l.map (fun r => (r - m) * (r - m))).sum := by
  induction l with
  | nil => rfl
  | cons x xs ih => simp [List.zip_cons_cons, ih]

/-- Degenerate self-correlation: zero variance yields 0. -/
theorem correlation_self_degenerate (sq : ℚ → ℚ) (t : List TradeData)
    (h : var_of (returns_of t) = 0) : correlation sq t t = 0 := by
  simp only [correlation]
  by_cases hg : returns_of t = [] ∨ returns_of t = []
  · rw [if_pos hg]
  · rw [if_neg hg, if_pos (Or.inl h)]

/-- Self-correlation with non-degenerate variance and a square root exact
at the needed point evaluates to 1. -/
theorem correlation_self_one (sq : ℚ → ℚ) (t : List TradeData)
    (h : var_of (returns_of t) ≠ 0)
    (hsq : sq (var_of (returns_of t) * var_of (returns_of t)) =
      var_of (returns_of t)) : correlation sq t t = 1 := by
  have hne : returns_of t ≠ [] := by
    intro hnil
    exact h (by rw [hnil]; simp [var_of])
  simp only [correlation]
  rw [if_neg (by simp [hne]), if_neg (by simp [h])]
  have hcov : ((( returns_of t).zip (returns_of t)).map
      (fun p => (p.1 - mean_of (returns_of t)) * (p.2 - mean_of (returns_of t)))).sum =
      var_of (returns_of t) := by
    rw [zip_self_var_aux]
    rfl
  rw [hcov, hsq, div_self h]
  norm_num

/-- The paired assignment `matrix[s1][s2] = c; matrix[s2][s1] = c`
preserves the three matrix invariants. -/
theorem corr_step_inv (sq : ℚ → ℚ) (trades : List TradeData) (s1 s2 : String)
    (m : CorrMat) (hS : SymmMat m) (hB : BoundMat m)
    (hO : OriginMat sq trades m) :
    SymmMat (mat_set (mat_set m s1 s2
        (correlation sq (trades_for trades s1) (trades_for trades s2))) s2 s1
        (correlation sq (trades_for trades s1) (trades_for trades s2))) ∧
    BoundMat (mat_set (mat_set m s1 s2
        (correlation sq (trades_for trades s1) (trades_for trades s2))) s2 s1
        (correlation sq (trades_for trades s1) (trades_for trades s2))) ∧
    OriginMat sq trades (mat_set (mat_set m s1 s2
        (correlation sq (trades_for trades s1) (trades_for trades s2))) s2 s1
        (correlation sq (trades_for trades s1) (trades_for trades s2))) := by
  refine ⟨?_, ?_, ?_⟩
  · intro a b
    rw [mat_get_set, mat_get_set, mat_get_set, mat_get_set]
    split_ifs <;> first | rfl | exact hS a b | tauto
  · intro a b v
    rw [mat_get_set, mat_get_set]
    split_ifs with h1 h2
    · intro hv; cases hv; exact correlation_bounds sq _ _
    · intro hv; cases hv; exact correlation_bounds sq _ _
    · exact hB a b v
  · intro a b v
    rw [mat_get_set, mat_get_set]
    split_ifs with h1 h2
    · intro hv; cases hv; exact Or.inr (by rw [h1.1, h1.2])
    · intro hv; cases hv; exact Or.inl (by rw [h2.1, h2.2])
    · exact hO a b v

/-- The inner matrix loop preserves the invariants. -/
theorem corr_inner_inv (sq : ℚ → ℚ) (trades : List TradeData) (s1 : String) :
    ∀ (rest : List String) (m : CorrMat),
      SymmMat m ∧ BoundMat m ∧ OriginMat sq trades m →
      SymmMat (corr_inner sq trades s1 rest m) ∧
      BoundMat (corr_inner sq trades s1 rest m) ∧
      OriginMat sq trades (corr_inner sq trades s1 rest m) := by
  intro rest
  induction rest with
  | nil => intro m h; exact h
  | cons s2 rs ih =>
    intro m h
    simp only [corr_inner]
    by_cases hg : trades_for trades s1 ≠ [] ∧ trades_for trades s2 ≠ []
    · rw [if_pos hg]
      exact ih _ (corr_step_inv sq trades s1 s2 m h.1 h.2.1 h.2.2)
    · rw [if_neg hg]
      exact ih m h

/-- The outer matrix loop preserves the invariants. -/
theorem corr_outer_inv (sq : ℚ → ℚ) (trades : List TradeData) :
    ∀ (syms : List String) (m : CorrMat),
      SymmMat m ∧ BoundMat m ∧ OriginMat sq trades m →
      SymmMat (corr_outer sq trades syms m) ∧
      BoundMat (corr_outer sq trades syms m) ∧
      OriginMat sq trades (corr_outer sq trades syms m) := by
  intro syms
  induction syms with
  | nil => intro m h; exact h
  | cons s1 rs ih =>
    intro m h
    simp only [corr_outer]
    exact ih _ (corr_inner_inv sq trades s1 (s1 :: rs) m h)

/-- Assignment never removes an entry. -/
theorem mat_get_set_isSome (m : CorrMat) (k1 k2 : String) (v : ℚ) (a b : String)
    (h : (mat_get m a b).isSome = true) :
    (mat_get (mat_set m k1 k2 v) a b).isSome = true := by
  rw [mat_get_set]
  split_ifs
  · rfl
  · exact h

/-- The inner loop never removes an entry. -/
theorem corr_inner_pres (sq : ℚ → ℚ) (trades : List TradeData) (s1 : String) :
    ∀ (rest : List String) (m : CorrMat) (a b : String),
      (mat_get m a b).isSome = true →
      (mat_get (corr_inner sq trades s1 rest m) a b).isSome = true := by
  intro rest
  induction rest with
  | nil => intro m a b h; exact h
  | cons s2 rs ih =>
    intro m a b h
    simp only [corr_inner]
    by_cases hg : trades_for trades s1 ≠ [] ∧ trades_for trades s2 ≠ []
    · rw [if_pos hg]
      exact ih _ a b (mat_get_set_isSome _ _ _ _ _ _ (mat_get_set_isSome _ _ _ _ _ _ h))
    · rw [if_neg hg]
      exact ih m a b h

/-- The outer loop never removes an entry. -/
theorem corr_outer_pres (sq : ℚ → ℚ) (trades : List TradeData) :
    ∀ (syms : List String) (m : CorrMat) (a b : String),
      (mat_get m a b).isSome = true →
      (mat_get (corr_outer sq trades syms m) a b).isSome = true := by
  intro syms
  induction syms with
  | nil => intro m a b h; exact h
  | cons s1 rs ih =>
    intro m a b h
    simp only [corr_outer]
    exact ih _ a b (corr_inner_pres sq trades s1 (s1 :: rs) m a b h)

/-- The first inner iteration writes the diagonal entry of its symbol. -/
theorem corr_inner_diag (sq : ℚ → ℚ) (trades : List TradeData) (s1 : String)
    (rest : List String) (m : CorrMat) (hne : trades_for trades s1 ≠ []) :
    (mat_get (corr_inner sq trades s1 (s1 :: rest) m) s1 s1).isSome = true := by
  simp only [corr_inner]
  rw [if_pos ⟨hne, hne⟩]
  apply corr_inner_pres
  rw [mat_get_set]
  rw [if_pos ⟨rfl, rfl⟩]
  rfl

/-- Every listed symbol ends with a diagonal entry. -/
theorem corr_outer_diag (sq : ℚ → ℚ) (trades : List TradeData) :
    ∀ (syms : List String) (m : CorrMat) (s : String),
      s ∈ syms → (∀ x ∈ syms, trades_for trades x ≠ []) →
      (mat_get (corr_outer sq trades syms m) s s).isSome = true := by
  intro syms
  induction syms with
  | nil => intro m s hs _; exact absurd hs (List.not_mem_nil s)
  | cons s1 rs ih =>
    intro m s hs hall
    simp only [corr_outer]
    rcases List.mem_cons.mp hs with he | hr
    · subst he
      exact corr_outer_pres sq trades rs _ s s
        (corr_inner_diag sq trades s rs m (hall s (List.mem_cons_self _ _)))
    · exact ih _ s hr (fun x hx => hall x (List.mem_cons_of_mem _ hx))

/-- Deduplication only keeps elements of the original list. -/
theorem dedup_first_aux_sub :
    ∀ (l seen : List String) (x : String), x ∈ dedup_first_aux seen l → x ∈ l := by
  intro l
  induction l with
  | nil => intro seen x h; exact absurd h (List.not_mem_nil x)
  | cons s rest ih =>
    intro seen x h
    simp only [dedup_first_aux] at h
    by_cases hs : s ∈ seen
    · rw [if_pos hs] at h
      exact List.mem_cons_of_mem _ (ih seen x h)
    · rw [if_neg hs] at h
      rcases List.mem_cons.mp h with he | hr
      · exact he ▸ List.mem_cons_self _ _
      · exact List.mem_cons_of_mem _ (ih _ x hr)

/-- A symbol appearing among the trades has a nonempty trade list. -/
theorem trades_for_ne_nil (trades : List TradeData) (s : String)
    (h : s ∈ trades.map (·.symbol)) : trades_for trades s ≠ [] := by
  obtain ⟨t, ht, hts⟩ := List.mem_map.mp h
  intro hnil
  have hmem : t ∈ trades_for trades s :=
    List.mem_filter.mpr ⟨ht, by simp [hts]⟩
  rw [hnil] at hmem
  exact absurd hmem (List.not_mem_nil t)

/-- C7 (amended) — the correlation matrix is symmetric and every entry
lies in `[-1, 1]`; any pair in which either symbol has fewer than two
trade observations yields 0; and a symbol's diagonal entry exists and is
1 exactly when its P&L-percent series has non-zero variance (under a
square root exact at the one needed point), and 0 when the variance is
degenerate — in particular the diagonal is 0, not 1, for symbols with a
single observation. -/
theorem correlation_matrix_props (sq : ℚ → ℚ) (trades : List TradeData) :
    SymmMat (calculate_correlation_matrix sq trades) ∧
    BoundMat (calculate_correlation_matrix sq trades) ∧
    (∀ a b v, mat_get (calculate_correlation_matrix sq trades) a b = some v →
      ((trades_for trades a).length < 2 ∨ (trades_for trades b).length < 2) →
      v = 0) ∧
    (∀ s, s ∈ dedup_first (trades.map (·.symbol)) →
      (mat_get (calculate_correlation_matrix sq trades) s s).isSome = true ∧
      (var_of (returns_of (trades_for trades s)) = 0 →
        mat_get (calculate_correlation_matrix sq trades) s s = some 0) ∧
      (var_of (returns_of (trades_for trades s)) ≠ 0 →
        sq (var_of (returns_of (trades_for trades s)) *
            var_of (returns_of (trades_for trades s))) =
          var_of (returns_of (trades_for trades s)) →
        mat_get (calculate_correlation_matrix sq trades) s s = some 1)) := by
  have hempty : SymmMat ([] : CorrMat) ∧ BoundMat ([] : CorrMat) ∧
      OriginMat sq trades ([] : CorrMat) :=
    ⟨fun a b => rfl, fun a b v h => by simp [mat_get, dict_get] at h,
     fun a b v h => by simp [mat_get, dict_get] at h⟩
  obtain ⟨hS, hB, hO⟩ :=
    corr_outer_inv sq trades (dedup_first (trades.map (·.symbol))) [] hempty
  refine ⟨hS, hB, ?_, ?_⟩
  · intro a b v hv hlen
    rcases hO a b v hv with h | h
    · rw [h]
      exact correlation_degenerate sq _ _ hlen
    · rw [h]
      exact correlation_degenerate sq _ _ hlen.symm
  · intro s hs
    have hall : ∀ x ∈ dedup_first (trades.map (·.symbol)),
        trades_for trades x ≠ [] :=
      fun x hx => trades_for_ne_nil trades x (dedup_first_aux_sub _ [] x hx)
    have hsome : (mat_get (calculate_correlation_matrix sq trades) s s).isSome = true := by
      unfold calculate_correlation_matrix
      exact corr_outer_diag sq trades (dedup_first (trades.map (·.symbol))) [] s hs hall
    obtain ⟨v, hv⟩ := Option.isSome_iff_exists.mp hsome
    have horig : v = correlation sq (trades_for trades s) (trades_for trades s) := by
      rcases hO s s v hv with h | h <;> exact h
    refine ⟨hsome, ?_, ?_⟩
    · intro h0
      rw [hv, horig]
      rw [correlation_self_degenerate sq _ h0]
    · intro hnz hsq
      rw [hv, horig]
      rw [correlation_self_one sq _ hnz hsq]

/-- C7 (counterexample) — with a single trade on symbol `A`, the matrix's
diagonal entry for `A` is computed as 0 (degenerate one-observation
variance), not 1: the diagonal does not "behave as 1". -/
theorem corr_diagonal_single_observation_zero :
    mat_get (calculate_correlation_matrix sqrtZero c7single) "A" "A" = some 0 ∧
    ¬ mat_get (calculate_correlation_matrix sqrtZero c7single) "A" "A" = some 1 := by
  have h : mat_get (calculate_correlation_matrix sqrtZero c7single) "A" "A" = some 0 := by
    simp [calculate_correlation_matrix, dedup_first, dedup_first_aux, corr_outer,
      corr_inner, trades_for, c7single, mkTD, correlation, returns_of, mean_of,
      var_of, mat_set, mat_get, dict_set, dict_get]
  refine ⟨h, ?_⟩
  rw [h]
  simp

/-- Witness for `correlation_matrix_props` on the three concrete trades:
symbol `A` has two observations with variance 2 (diagonal 1 under the
pointwise-exact square root), symbol `B` has one (pair entries 0), and
the `A`/`B` entries agree symmetrically. -/
theorem correlation_matrix_props_witness :
    ("A" ∈ dedup_first (c7trades.map (·.symbol)) ∧
     var_of (returns_of (trades_for c7trades "A")) ≠ 0 ∧
     sqrtAtFour (var_of (returns_of (trades_for c7trades "A")) *
         var_of (returns_of (trades_for c7trades "A"))) =
       var_of (returns_of (trades_for c7trades "A")) ∧
     (trades_for c7trades "B").length < 2 ∧
     mat_get (calculate_correlation_matrix sqrtAtFour c7trades) "A" "B" = some 0) ∧
    (mat_get (calculate_correlation_matrix sqrtAtFour c7trades) "A" "B" =
       mat_get (calculate_correlation_matrix sqrtAtFour c7trades) "B" "A" ∧
     (0 : ℚ) = 0 ∧
     mat_get (calculate_correlation_matrix sqrtAtFour c7trades) "A" "A" = some 1) := by
  have hvar : var_of (returns_of (trades_for c7trades "A")) = 2 := by
    simp [trades_for, c7trades, mkTD, returns_of, var_of, mean_of]
    norm_num
  have hnz : var_of (returns_of (trades_for c7trades "A")) ≠ 0 := by
    rw [hvar]; norm_num
  have hsq : sqrtAtFour (var_of (returns_of (trades_for c7trades "A")) *
      var_of (returns_of (trades_for c7trades "A"))) =
      var_of (returns_of (trades_for c7trades "A")) := by
    rw [hvar]; norm_num [sqrtAtFour]
  have hmem : "A" ∈ dedup_first (c7trades.map (·.symbol)) := by decide
  have hlenB : (trades_for c7trades "B").length < 2 := by decide
  have hAB : mat_get (calculate_correlation_matrix sqrtAtFour c7trades) "A" "B" =
      some 0 := by
    simp [calculate_correlation_matrix, dedup_first, dedup_first_aux, corr_outer,
      corr_inner, trades_for, c7trades, mkTD, correlation, returns_of, mean_of,
      var_of, mat_set, mat_get, dict_set, dict_get]
  refine ⟨⟨hmem, hnz, hsq, hlenB, hAB⟩, ?_, ?_, ?_⟩
  · exact (correlation_matrix_props sqrtAtFour c7trades).1 "A" "B"
  · exact (correlation_matrix_props sqrtAtFour c7trades).2.2.1 "A" "B" 0 hAB
      (Or.inr hlenB)
  · exact ((correlation_matrix_props sqrtAtFour c7trades).2.2.2 "A" hmem).2.2 hnz hsq
